import Mathlib

set_option maxHeartbeats 1000000
set_option maxRecDepth 2000

/-! Embedding of the financial-control program (src/app.py): raw spreadsheet
tables, schema normalizers, installment arithmetic, recurring-bill helpers
and reserve roll-ups.  Monetary values are embedded as exact rationals and
python float `round(x, 2)` as exact decimal rounding half-to-even. -/

/-- Calendar date (year, month, day), as produced by python `datetime.date`. -/
structure SDate where
  ano : Nat
  mes : Nat
  dia : Nat
deriving DecidableEq, Repr

/-- A raw spreadsheet cell: missing (NA/NaN/NaT), text, numeric, boolean or date. -/
inductive RVal where
  | na : RVal
  | rstr : String → RVal
  | rnum : Rat → RVal
  | rbool : Bool → RVal
  | rdate : SDate → RVal
deriving DecidableEq, Repr

/-- Whitespace test used by python str.strip. -/
def isWS (c : Char) : Bool := c = ' ' || c = '\t' || c = '\n' || c = '\r'

/-- python str.strip on the underlying character list. -/
def stripChars (cs : List Char) : List Char :=
  ((cs.dropWhile isWS).reverse.dropWhile isWS).reverse

/-- python str.strip. -/
def pyStrip (s : String) : String := ⟨stripChars s.data⟩

/-- python str.lower (character by character). -/
def pyLower (s : String) : String := ⟨s.data.map Char.toLower⟩

/-- python str.upper (character by character). -/
def pyUpper (s : String) : String := ⟨s.data.map Char.toUpper⟩

/-- The needle occurs at the start of the hay. -/
def leadsL : List Char → List Char → Bool
  | [], _ => true
  | _ :: _, [] => false
  | n :: ns, h :: hs => n == h && leadsL ns hs

/-- python substring membership (needle in hay) on character lists. -/
def hasSubL (ns : List Char) : List Char → Bool
  | [] => ns.isEmpty
  | h :: hs => leadsL ns (h :: hs) || hasSubL ns hs

/-- python `needle in hay` on strings. -/
def hasSub (needle hay : String) : Bool := hasSubL needle.data hay.data

example : pyStrip "  ID " = "ID" := rfl
example : pyLower "GeRal" = "geral" := rfl
example : hasSub "aporte" "meu aporte mensal" = true := rfl
example : hasSub "aporte" "retirada" = false := rfl

/-- pandas `astype("string")`: missing cells stay missing, the rest get a
textual form.  (The exact rendering of numbers/booleans/dates only matters
for degenerate inputs; normalized tables hold `rstr` cells in text columns.) -/
def rvalToStrOpt : RVal → Option String
  | RVal.na => none
  | RVal.rstr s => some s
  | RVal.rnum q => some (toString q)
  | RVal.rbool b => some (if b then "True" else "False")
  | RVal.rdate d => some (toString d.ano ++ "-" ++ toString d.mes ++ "-" ++ toString d.dia)

/-- pandas `to_numeric(errors="coerce")`; parsing of numeric strings is
abstracted by the parameter `pnum`. -/
def rvalToNumOpt (pnum : String → Option Rat) : RVal → Option Rat
  | RVal.na => none
  | RVal.rstr s => pnum s
  | RVal.rnum q => some q
  | RVal.rbool b => some (if b then 1 else 0)
  | RVal.rdate _ => none

/-- pandas `to_datetime(errors="coerce").dt.date`; parsing of date strings is
abstracted by the parameter `pdate` (numeric epoch timestamps are not
modelled: normalized tables hold `rdate` or `na` in date columns). -/
def rvalToDateOpt (pdate : String → Option SDate) : RVal → Option SDate
  | RVal.na => none
  | RVal.rstr s => pdate s
  | RVal.rnum _ => none
  | RVal.rbool _ => none
  | RVal.rdate d => some d

/-- python `str()` of a cell (pandas `astype(str)`); a missing float cell
renders as "nan". -/
def rvalToPyStr : RVal → String
  | RVal.na => "nan"
  | RVal.rstr s => s
  | RVal.rnum q => toString q
  | RVal.rbool b => if b then "True" else "False"
  | RVal.rdate d => toString d.ano ++ "-" ++ toString d.mes ++ "-" ++ toString d.dia

/-- The truthy spellings accepted for the boolean `Ativo` flag (app.py line 174). -/
def TRUTHY : List String := ["true", "1", "sim", "yes", "y"]

/-- `astype(str).str.strip().str.lower().isin(["true","1","sim","yes","y"])`. -/
def coerceAtivo (v : RVal) : Bool := TRUTHY.contains (pyLower (pyStrip (rvalToPyStr v)))

/-- Does the cell already hold a boolean (the dataframe column has bool dtype)?
Column dtypes are approximated cell-wise in this embedding. -/
def isRBool : RVal → Bool
  | RVal.rbool _ => true
  | _ => false

/-- numpy `astype(int)` on an exact rational: truncation toward zero. -/
def ratTrunc (q : Rat) : Int := q.num.tdiv q.den

/-- The Ativo column handling (app.py 173-175 / 200-202): kept verbatim when
the column already has bool dtype, otherwise coerced from text. -/
def ativoOf (isBool : Bool) (v : RVal) : Bool :=
  if isBool then
    match v with
    | RVal.rbool b => b
    | _ => false
  else coerceAtivo v

/-- A raw sheet: column names plus rows of (column, cell) pairs.  A column
absent from a row reads back as a missing cell. -/
structure RawTable where
  cols : List String
  rows : List (List (String × RVal))
deriving DecidableEq, Repr

/-- Read one cell of a raw row. -/
def lookupCell (r : List (String × RVal)) (c : String) : RVal :=
  match r.find? (fun p => p.1 == c) with
  | some p => p.2
  | none => RVal.na

/-- `df.columns = [str(c).strip() for c in df.columns]` applied to a row's keys. -/
def stripKeys (r : List (String × RVal)) : List (String × RVal) :=
  r.map (fun p => (pyStrip p.1, p.2))

def GASTOS_COLS : List String :=
  ["ID", "Data", "Categoria", "Subcategoria", "Valor", "Pagamento", "Quem", "Obs", "Origem", "RefFixa"]

def METAS_COLS : List String := ["Categoria", "Meta"]

def FIXAS_COLS : List String :=
  ["ID_Fixa", "Descricao", "Categoria", "Valor", "Dia_Venc", "Pagamento", "Quem", "Ativo", "Obs"]

def RESERVAS_COLS : List String := ["ID_Reserva", "Reserva", "Meta", "Ativo", "Obs"]

def MOVRES_COLS : List String :=
  ["ID_Mov", "Data", "ID_Reserva", "Reserva", "Tipo", "Valor", "Quem", "Obs"]

/-- Replace blank identifiers by fresh ones (`uuid.uuid4().hex` supply),
consumed in row order. -/
def fillIds (fresh : Nat → String) : List String → Nat → List String
  | [], _ => []
  | s :: rest, k =>
    if pyStrip s = "" then fresh k :: fillIds fresh rest (k + 1)
    else s :: fillIds fresh rest k

/-- Are all required columns present (after stripping the header)? -/
def colsMissing (req : List String) (cols : List String) : Bool :=
  req.any (fun c => !((cols.map pyStrip).contains c))

/-- A normalized ledger row (sheet "gastos"). -/
structure GastoRow where
  gid : String
  data : Option SDate
  categoria : String
  subcategoria : String
  valor : Rat
  pagamento : String
  quem : String
  obs : String
  origem : String
  refFixa : String
deriving DecidableEq, Repr

/-- A normalized budget-goal row (sheet "metas"). -/
structure MetaRow where
  categoria : String
  meta : Rat
deriving DecidableEq, Repr

/-- A normalized recurring-bill template row (sheet "fixas"). -/
structure FixaRow where
  idFixa : String
  descricao : String
  categoria : String
  valor : Rat
  diaVenc : Int
  pagamento : String
  quem : String
  ativo : Bool
  obs : String
deriving DecidableEq, Repr

/-- A normalized reserve row (sheet "reservas"). -/
structure ReservaRow where
  idReserva : String
  reserva : String
  meta : Rat
  ativo : Bool
  obs : String
deriving DecidableEq, Repr

/-- A normalized reserve-movement row (sheet "mov_reservas"). -/
structure MovRow where
  idMov : String
  data : Option SDate
  idReserva : String
  reserva : String
  tipo : String
  valor : Rat
  quem : String
  obs : String
deriving DecidableEq, Repr

/-- Build one normalized gastos row from its (already id-filled) id and raw row. -/
def gastoOfRow (pnum : String → Option Rat) (pdate : String → Option SDate)
    (i : String) (r : List (String × RVal)) : GastoRow :=
  { gid := i
    data := rvalToDateOpt pdate (lookupCell r "Data")
    categoria := (rvalToStrOpt (lookupCell r "Categoria")).getD ""
    subcategoria := (rvalToStrOpt (lookupCell r "Subcategoria")).getD ""
    valor := (rvalToNumOpt pnum (lookupCell r "Valor")).getD 0
    pagamento := (rvalToStrOpt (lookupCell r "Pagamento")).getD ""
    quem := (rvalToStrOpt (lookupCell r "Quem")).getD ""
    obs := (rvalToStrOpt (lookupCell r "Obs")).getD ""
    origem := (rvalToStrOpt (lookupCell r "Origem")).getD ""
    refFixa := (rvalToStrOpt (lookupCell r "RefFixa")).getD "" }

/-- `_ensure_gastos_schema` (app.py 109-130). -/
def ensure_gastos_schema (pnum : String → Option Rat) (pdate : String → Option SDate)
    (fresh : Nat → String) (t : RawTable) : List GastoRow × Bool :=
  let rows := t.rows.map stripKeys
  let changedCols := colsMissing GASTOS_COLS t.cols
  let ids0 := rows.map (fun r => (rvalToStrOpt (lookupCell r "ID")).getD "")
  let anyMissing := ids0.any (fun s => pyStrip s == "")
  let ids := fillIds fresh ids0 0
  ((ids.zip rows).map (fun p => gastoOfRow pnum pdate p.1 p.2), changedCols || anyMissing)

/-- Build one normalized metas row from a raw row. -/
def metaOfRow (pnum : String → Option Rat) (r : List (String × RVal)) : MetaRow :=
  { categoria := pyStrip ((rvalToStrOpt (lookupCell r "Categoria")).getD "")
    meta := (rvalToNumOpt pnum (lookupCell r "Meta")).getD 0 }

/-- `_ensure_metas_schema` (app.py 132-149). -/
def ensure_metas_schema (pnum : String → Option Rat) (t : RawTable) : List MetaRow × Bool :=
  let rows := t.rows.map stripKeys
  let changedCols := colsMissing METAS_COLS t.cols
  let out0 := rows.map (metaOfRow pnum)
  let hasGeral := out0.any (fun m => pyLower m.categoria == "geral")
  let out1 := if hasGeral then out0 else out0 ++ [{ categoria := "Geral", meta := 0 }]
  let out2 := out1.filter (fun m => pyStrip m.categoria != "")
  (out2, changedCols || !hasGeral)

/-- Build one normalized fixas row from its id, its coerced Ativo flag and raw row. -/
def fixaOfRow (pnum : String → Option Rat) (i : String) (a : Bool)
    (r : List (String × RVal)) : FixaRow :=
  { idFixa := i
    descricao := pyStrip ((rvalToStrOpt (lookupCell r "Descricao")).getD "")
    categoria := pyStrip ((rvalToStrOpt (lookupCell r "Categoria")).getD "")
    valor := (rvalToNumOpt pnum (lookupCell r "Valor")).getD 0
    diaVenc := ratTrunc ((rvalToNumOpt pnum (lookupCell r "Dia_Venc")).getD 1)
    pagamento := (rvalToStrOpt (lookupCell r "Pagamento")).getD ""
    quem := (rvalToStrOpt (lookupCell r "Quem")).getD ""
    ativo := a
    obs := (rvalToStrOpt (lookupCell r "Obs")).getD "" }

/-- `_ensure_fixas_schema` (app.py 151-180). -/
def ensure_fixas_schema (pnum : String → Option Rat) (fresh : Nat → String)
    (t : RawTable) : List FixaRow × Bool :=
  let rows := t.rows.map stripKeys
  let changedCols := colsMissing FIXAS_COLS t.cols
  let ids0 := rows.map (fun r => (rvalToStrOpt (lookupCell r "ID_Fixa")).getD "")
  let anyMissing := ids0.any (fun s => pyStrip s == "")
  let ids := fillIds fresh ids0 0
  let ativoIsBool := rows.all (fun r => isRBool (lookupCell r "Ativo"))
  let out := (ids.zip rows).map
    (fun p => fixaOfRow pnum p.1 (ativoOf ativoIsBool (lookupCell p.2 "Ativo")) p.2)
  (out.filter (fun f => pyStrip f.descricao != ""), changedCols || anyMissing || !ativoIsBool)

/-- Build one normalized reservas row from its id, coerced Ativo flag and raw row. -/
def reservaOfRow (pnum : String → Option Rat) (i : String) (a : Bool)
    (r : List (String × RVal)) : ReservaRow :=
  { idReserva := i
    reserva := pyStrip ((rvalToStrOpt (lookupCell r "Reserva")).getD "")
    meta := (rvalToNumOpt pnum (lookupCell r "Meta")).getD 0
    ativo := a
    obs := (rvalToStrOpt (lookupCell r "Obs")).getD "" }

/-- `_ensure_reservas_schema` (app.py 182-207). -/
def ensure_reservas_schema (pnum : String → Option Rat) (fresh : Nat → String)
    (t : RawTable) : List ReservaRow × Bool :=
  let rows := t.rows.map stripKeys
  let changedCols := colsMissing RESERVAS_COLS t.cols
  let ids0 := rows.map (fun r => (rvalToStrOpt (lookupCell r "ID_Reserva")).getD "")
  let anyMissing := ids0.any (fun s => pyStrip s == "")
  let ids := fillIds fresh ids0 0
  let ativoIsBool := rows.all (fun r => isRBool (lookupCell r "Ativo"))
  let out := (ids.zip rows).map
    (fun p => reservaOfRow pnum p.1 (ativoOf ativoIsBool (lookupCell p.2 "Ativo")) p.2)
  (out.filter (fun x => pyStrip x.reserva != ""), changedCols || anyMissing || !ativoIsBool)

/-- Build one normalized mov_reservas row from its id and raw row.  A missing
Tipo cell is defaulted to "Aporte" (app.py line 227). -/
def movOfRow (pnum : String → Option Rat) (pdate : String → Option SDate)
    (i : String) (r : List (String × RVal)) : MovRow :=
  { idMov := i
    data := rvalToDateOpt pdate (lookupCell r "Data")
    idReserva := (rvalToStrOpt (lookupCell r "ID_Reserva")).getD ""
    reserva := pyStrip ((rvalToStrOpt (lookupCell r "Reserva")).getD "")
    tipo := pyStrip ((rvalToStrOpt (lookupCell r "Tipo")).getD "Aporte")
    valor := (rvalToNumOpt pnum (lookupCell r "Valor")).getD 0
    quem := (rvalToStrOpt (lookupCell r "Quem")).getD ""
    obs := (rvalToStrOpt (lookupCell r "Obs")).getD "" }

/-- `_ensure_movres_schema` (app.py 209-232). -/
def ensure_movres_schema (pnum : String → Option Rat) (pdate : String → Option SDate)
    (fresh : Nat → String) (t : RawTable) : List MovRow × Bool :=
  let rows := t.rows.map stripKeys
  let changedCols := colsMissing MOVRES_COLS t.cols
  let ids0 := rows.map (fun r => (rvalToStrOpt (lookupCell r "ID_Mov")).getD "")
  let anyMissing := ids0.any (fun s => pyStrip s == "")
  let ids := fillIds fresh ids0 0
  ((ids.zip rows).map (fun p => movOfRow pnum pdate p.1 p.2), changedCols || anyMissing)

/-- Render an Option date back to a raw cell. -/
def rawOfDate : Option SDate → RVal
  | none => RVal.na
  | some d => RVal.rdate d

/-- A normalized gastos row as a raw row (how the dataframe stores it). -/
def gastoToRawRow (g : GastoRow) : List (String × RVal) :=
  [("ID", RVal.rstr g.gid), ("Data", rawOfDate g.data), ("Categoria", RVal.rstr g.categoria),
   ("Subcategoria", RVal.rstr g.subcategoria), ("Valor", RVal.rnum g.valor),
   ("Pagamento", RVal.rstr g.pagamento), ("Quem", RVal.rstr g.quem), ("Obs", RVal.rstr g.obs),
   ("Origem", RVal.rstr g.origem), ("RefFixa", RVal.rstr g.refFixa)]

def gastosToRaw (l : List GastoRow) : RawTable :=
  { cols := GASTOS_COLS, rows := l.map gastoToRawRow }

def metaToRawRow (m : MetaRow) : List (String × RVal) :=
  [("Categoria", RVal.rstr m.categoria), ("Meta", RVal.rnum m.meta)]

def metasToRaw (l : List MetaRow) : RawTable :=
  { cols := METAS_COLS, rows := l.map metaToRawRow }

def fixaToRawRow (f : FixaRow) : List (String × RVal) :=
  [("ID_Fixa", RVal.rstr f.idFixa), ("Descricao", RVal.rstr f.descricao),
   ("Categoria", RVal.rstr f.categoria), ("Valor", RVal.rnum f.valor),
   ("Dia_Venc", RVal.rnum (f.diaVenc : Rat)), ("Pagamento", RVal.rstr f.pagamento),
   ("Quem", RVal.rstr f.quem), ("Ativo", RVal.rbool f.ativo), ("Obs", RVal.rstr f.obs)]

def fixasToRaw (l : List FixaRow) : RawTable :=
  { cols := FIXAS_COLS, rows := l.map fixaToRawRow }

def reservaToRawRow (x : ReservaRow) : List (String × RVal) :=
  [("ID_Reserva", RVal.rstr x.idReserva), ("Reserva", RVal.rstr x.reserva),
   ("Meta", RVal.rnum x.meta), ("Ativo", RVal.rbool x.ativo), ("Obs", RVal.rstr x.obs)]

def reservasToRaw (l : List ReservaRow) : RawTable :=
  { cols := RESERVAS_COLS, rows := l.map reservaToRawRow }

def movToRawRow (m : MovRow) : List (String × RVal) :=
  [("ID_Mov", RVal.rstr m.idMov), ("Data", rawOfDate m.data),
   ("ID_Reserva", RVal.rstr m.idReserva), ("Reserva", RVal.rstr m.reserva),
   ("Tipo", RVal.rstr m.tipo), ("Valor", RVal.rnum m.valor),
   ("Quem", RVal.rstr m.quem), ("Obs", RVal.rstr m.obs)]

def movresToRaw (l : List MovRow) : RawTable :=
  { cols := MOVRES_COLS, rows := l.map movToRawRow }

/-- Floor of a rational as an integer (computable, kernel-reducible). -/
def ratFloor (q : Rat) : Int := q.num.fdiv q.den

/-- Round a rational to the nearest integer, ties to even (python `round`
on an exact decimal value). -/
def halfEvenRound (q : Rat) : Int :=
  if q - (ratFloor q : Rat) < 1 / 2 then ratFloor q
  else if 1 / 2 < q - (ratFloor q : Rat) then ratFloor q + 1
  else if ratFloor q % 2 = 0 then ratFloor q else ratFloor q + 1

/-- python `round(x, 2)` in the exact decimal reading. -/
def round2 (q : Rat) : Rat := (halfEvenRound (100 * q) : Rat) / 100

/-- `repartir_valor_em_parcelas` (app.py 431-442): split a total into n
installments rounded to cents, the last one absorbing the remainder. -/
def repartir_valor_em_parcelas (valor_total : Rat) (n0 : Int) : List Rat :=
  let n := max 1 n0
  let base := round2 (valor_total / (n : Rat))
  let parcelas := List.replicate n.toNat base
  let ajuste := round2 (valor_total - round2 (base * (n : Rat)))
  parcelas.dropLast ++ [round2 (base + ajuste)]

/-- Gregorian leap-year test (`calendar` module). -/
def bissexto (ano : Nat) : Bool := ano % 4 == 0 && (ano % 100 != 0 || ano % 400 == 0)

/-- `ultimo_dia_mes` (app.py 421-422): `calendar.monthrange(ano, mes)[1]`. -/
def ultimo_dia_mes (ano mes : Nat) : Nat :=
  if mes = 2 then (if bissexto ano then 29 else 28)
  else if mes = 4 ∨ mes = 6 ∨ mes = 9 ∨ mes = 11 then 30
  else 31

/-- `add_meses` (app.py 424-429); the program only calls it with a
non-negative month offset, so Nat arithmetic is faithful. -/
def add_meses (d : SDate) (meses : Nat) : SDate :=
  let ano := d.ano + (d.mes - 1 + meses) / 12
  let mes := (d.mes - 1 + meses) % 12 + 1
  { ano := ano, mes := mes, dia := min d.dia (ultimo_dia_mes ano mes) }

/-- The projected installment entries built by the loop of
`gerar_lancamentos_parcelados` (app.py 444-492); `fresh` supplies the uuid
hex ids and `grupo` the 10-character group marker. -/
def novos_parcelados (fresh : Nat → String) (grupo : String) (base : GastoRow)
    (parcelas : Int) (primeira : SDate) (dia0 : Option Int) : List GastoRow :=
  if parcelas ≤ 1 then []
  else
    let n := parcelas.toNat
    let d1 : Int := match dia0 with | none => (primeira.dia : Int) | some d => d
    let d2 : Int := max 1 (min d1 31)
    let d3 : Int := if d2 = 1 then 2 else d2
    let valores := repartir_valor_em_parcelas base.valor parcelas
    (List.range n).map (fun i =>
      let dt0 := add_meses primeira i
      let dia := (min d3 ((ultimo_dia_mes dt0.ano dt0.mes : Int))).toNat
      let sub := pyStrip base.subcategoria
      let sufixo := " (Parcela " ++ toString (i + 1) ++ "/" ++ toString n ++ ")"
      let obs0 := pyStrip base.obs
      { base with
        gid := fresh i
        data := some { ano := dt0.ano, mes := dt0.mes, dia := dia }
        valor := valores.getD i 0
        origem := "PARCELADO"
        obs := pyStrip (if obs0 = "" then "GRUPO=" ++ grupo else obs0 ++ " | GRUPO=" ++ grupo)
        subcategoria := if sub = "" then pyStrip sufixo else pyStrip (sub ++ sufixo) })

/-- `gerar_lancamentos_parcelados` (app.py 444-495): append the projected
installments and re-normalize; with n <= 1 the ledger is returned unchanged. -/
def gerar_lancamentos_parcelados (pnum : String → Option Rat) (pdate : String → Option SDate)
    (freshIds fresh : Nat → String) (grupo : String) (df : List GastoRow) (base : GastoRow)
    (parcelas : Int) (primeira : SDate) (dia0 : Option Int) : List GastoRow :=
  if parcelas ≤ 1 then df
  else (ensure_gastos_schema pnum pdate freshIds
    (gastosToRaw (df ++ novos_parcelados fresh grupo base parcelas primeira dia0))).1

/-- Bool test used by the day-one-avoidance claim: the entry carries a date
whose day of month is at least 2. -/
def dayAtLeastTwo (g : GastoRow) : Bool :=
  match g.data with
  | some d => decide (2 ≤ d.dia)
  | none => false

/-- `ja_lancou_fixa_no_mes` (app.py 548-555). -/
def ja_lancou_fixa_no_mes (gastos : List GastoRow) (ano mes : Nat) (idFixa : String) : Bool :=
  gastos.any (fun g =>
    match g.data with
    | none => false
    | some d => d.ano == ano && d.mes == mes &&
        pyUpper g.origem == "FIXA" && pyStrip g.refFixa == idFixa)

/-- `fixas_ativas` (app.py 516-520); on an empty table the source first
re-normalizes, which leaves it empty, so filtering is faithful. -/
def fixas_ativas (fixas : List FixaRow) : List FixaRow := fixas.filter (fun f => f.ativo)

/-- The fixed/variable mask of `marcar_e_separar_fixas` (app.py line 536). -/
def is_fixa_pred (idsAtivas : List String) (g : GastoRow) : Bool :=
  pyUpper g.origem == "FIXA" || idsAtivas.contains (pyStrip g.refFixa)

/-- `marcar_e_separar_fixas` (app.py 522-546): returns planned total, posted
total, the variable rows, the fixed rows and the active templates. -/
def marcar_e_separar_fixas (pnum : String → Option Rat) (pdate : String → Option SDate)
    (freshVar freshFix : Nat → String) (periodo : List GastoRow) (fixas : List FixaRow) :
    Rat × Rat × List GastoRow × List GastoRow × List FixaRow :=
  let f := fixas_ativas fixas
  let ids := f.map (fun x => pyStrip x.idFixa)
  let dfFix0 := periodo.filter (is_fixa_pred ids)
  let dfVar0 := periodo.filter (fun g => !(is_fixa_pred ids g))
  let dfVar := (ensure_gastos_schema pnum pdate freshVar (gastosToRaw dfVar0)).1
  let dfFix := (ensure_gastos_schema pnum pdate freshFix (gastosToRaw dfFix0)).1
  ((f.map (fun x => x.valor)).sum, (dfFix.map (fun g => g.valor)).sum, dfVar, dfFix, f)

/-- Modelled from the spec: the monthly materialization of one active bill
template (spec 4.3) — the UI tab that performs it is absent from src/app.py.
Fresh id, origin FIXA, recurring-reference = template id, amount, category,
payer and payment method defaulted from the template, due day clamped to the
month length. -/
def novaEntradaFixa (fresh : Nat → String) (k : Nat) (ano mes : Nat) (f : FixaRow) : GastoRow :=
  { gid := fresh k
    data := some { ano := ano, mes := mes,
                   dia := (max 1 (min f.diaVenc ((ultimo_dia_mes ano mes : Int)))).toNat }
    categoria := f.categoria
    subcategoria := ""
    valor := f.valor
    pagamento := f.pagamento
    quem := f.quem
    obs := f.descricao
    origem := "FIXA"
    refFixa := f.idFixa }

/-- Modelled from the spec: the generator loop over active templates, using
the source predicate `ja_lancou_fixa_no_mes` as deduplication key; returns
ledger, created count and skipped count (spec 4.3). -/
def gerarFixasAux (fresh : Nat → String) (ano mes : Nat) :
    List FixaRow → List GastoRow → Nat → Nat → Nat → List GastoRow × Nat × Nat
  | [], ledger, created, skipped, _ => (ledger, created, skipped)
  | f :: rest, ledger, created, skipped, k =>
    if ja_lancou_fixa_no_mes ledger ano mes f.idFixa then
      gerarFixasAux fresh ano mes rest ledger created (skipped + 1) k
    else
      gerarFixasAux fresh ano mes rest (ledger ++ [novaEntradaFixa fresh k ano mes f])
        (created + 1) skipped (k + 1)

/-- Modelled from the spec: `generate(ledger, bills, year, month)` (spec 4.3). -/
def gerar_fixas_mes (fresh : Nat → String) (gastos : List GastoRow) (fixas : List FixaRow)
    (ano mes : Nat) : List GastoRow × Nat × Nat :=
  gerarFixasAux fresh ano mes (fixas_ativas fixas) gastos 0 0 0

/-- pandas `.clip(lower=0.0)` on a single value (kernel-reducible max with 0). -/
def clip0 (x : Rat) : Rat := if x < 0 then 0 else x

/-- The movement sign of `calcular_saldos_reservas` (app.py 571-572):
+1 when the stripped, lowered Tipo contains "aporte", else -1. -/
def sinal_mov (tipo : String) : Rat :=
  if hasSub "aporte" (pyLower (pyStrip tipo)) then 1 else -1

/-- Per-reserve signed movement sum; the source groupby + left merge with
fillna(0) computes exactly this per reserve row. -/
def saldo_mov_reserva (movs : List MovRow) (idR : String) : Rat :=
  ((movs.filter (fun m => m.idReserva == idR)).map (fun m => m.valor * sinal_mov m.tipo)).sum

/-- A reserve row extended with the derived Saldo/Percentual/Falta columns. -/
structure ReservaCalc where
  idReserva : String
  reserva : String
  meta : Rat
  ativo : Bool
  obs : String
  saldo : Rat
  percentual : Rat
  falta : Rat
deriving DecidableEq, Repr

/-- `calcular_saldos_reservas` (app.py 557-582).  An empty reserves table is
re-normalized (still empty) and returned with the derived columns, i.e. []. -/
def calcular_saldos_reservas (reservas : List ReservaRow) (movs : List MovRow) :
    List ReservaCalc :=
  match reservas with
  | [] => []
  | _ :: _ =>
    reservas.map (fun r =>
      let saldo : Rat := if movs.isEmpty then 0 else saldo_mov_reserva movs r.idReserva
      { idReserva := r.idReserva, reserva := r.reserva, meta := r.meta, ativo := r.ativo,
        obs := r.obs, saldo := saldo,
        percentual := if (0 : Rat) < r.meta then saldo / r.meta * 100 else 0,
        falta := clip0 (r.meta - saldo) })

/-- The five in-memory tables of the application. -/
structure AppState where
  gastos : List GastoRow
  metas : List MetaRow
  fixas : List FixaRow
  reservas : List ReservaRow
  movres : List MovRow
deriving DecidableEq, Repr

/-- The module-level delete handler for a bill template (app.py 1211-1217):
only the fixas table is filtered and re-normalized; all other tables are
passed to salvar_excel unchanged. -/
def apagar_conta_fixa (pnum : String → Option Rat) (fresh : Nat → String)
    (escolha : String) (st : AppState) : AppState :=
  { st with fixas := (ensure_fixas_schema pnum fresh
      (fixasToRaw (st.fixas.filter (fun f => f.idFixa != escolha)))).1 }

/-- The module-level delete handler for a reserve (app.py 1283-1293): the
reserve row is removed AND every movement whose ID_Reserva equals the deleted
id is removed too (line 1286); both tables are re-normalized. -/
def apagar_reserva (pnum : String → Option Rat) (pdate : String → Option SDate)
    (freshR freshM : Nat → String) (escolha : String) (st : AppState) : AppState :=
  { st with
    reservas := (ensure_reservas_schema pnum freshR
      (reservasToRaw (st.reservas.filter (fun r => r.idReserva != escolha)))).1
    movres := (ensure_movres_schema pnum pdate freshM
      (movresToRaw (st.movres.filter (fun m => m.idReserva != escolha)))).1 }

/-- On-disk state around dados.xlsx: the document, its .bak sidecar and the
lock marker. -/
structure FS where
  doc : Option (List Nat)
  bak : Option (List Nat)
  lockHeld : Bool
deriving DecidableEq, Repr

/-- `_write_bytes_atomic` (app.py 273-291): best-effort backup of the previous
document, then atomic replace. -/
def write_bytes_atomic (fs : FS) (b : List Nat) : FS :=
  { doc := some b
    bak := if fs.doc.isSome then fs.doc else fs.bak
    lockHeld := fs.lockHeld }

/-- The re-normalization of all five tables done inside `salvar_excel`
(app.py 309-313). -/
def normalizeState (pnum : String → Option Rat) (pdate : String → Option SDate)
    (frG frF frR frM : Nat → String) (st : AppState) : AppState :=
  { gastos := (ensure_gastos_schema pnum pdate frG (gastosToRaw st.gastos)).1
    metas := (ensure_metas_schema pnum (metasToRaw st.metas)).1
    fixas := (ensure_fixas_schema pnum frF (fixasToRaw st.fixas)).1
    reservas := (ensure_reservas_schema pnum frR (reservasToRaw st.reservas)).1
    movres := (ensure_movres_schema pnum pdate frM (movresToRaw st.movres)).1 }

/-- `salvar_excel` (app.py 303-318).  `acquired` is the outcome of
`acquire_lock` (its wall-clock polling loop is abstracted to its boolean
result); `serialize` abstracts `excel_bytes`.  On lock-timeout the function
raises the retryable error before any serialization or write. -/
def salvar_excel (serialize : AppState → List Nat) (pnum : String → Option Rat)
    (pdate : String → Option SDate) (frG frF frR frM : Nat → String)
    (acquired : Bool) (st : AppState) (fs : FS) : Except String Unit × FS :=
  if acquired then
    let st2 := normalizeState pnum pdate frG frF frR frM st
    let fs1 := write_bytes_atomic { fs with lockHeld := true } (serialize st2)
    (Except.ok (), { fs1 with lockHeld := false })
  else
    (Except.error "Não foi possível salvar agora. Tente novamente.", fs)

/-- Invariant of a normalized gastos table: row ids are not blank. -/
def GastosOk (T : List GastoRow) : Prop := ∀ g ∈ T, pyStrip g.gid ≠ ""

/-- Invariant of a normalized metas table: categories are stripped and
non-blank, and a (case-insensitive) Geral row is present. -/
def MetasOk (T : List MetaRow) : Prop :=
  (∀ m ∈ T, pyStrip m.categoria = m.categoria ∧ m.categoria ≠ "") ∧
  ∃ m ∈ T, pyLower m.categoria = "geral"

/-- Invariant of a normalized fixas table. -/
def FixasOk (T : List FixaRow) : Prop :=
  ∀ f ∈ T, pyStrip f.idFixa ≠ "" ∧ pyStrip f.descricao = f.descricao ∧
    f.descricao ≠ "" ∧ pyStrip f.categoria = f.categoria

/-- Invariant of a normalized reservas table. -/
def ReservasOk (T : List ReservaRow) : Prop :=
  ∀ r ∈ T, pyStrip r.idReserva ≠ "" ∧ pyStrip r.reserva = r.reserva ∧ r.reserva ≠ ""

/-- Invariant of a normalized mov_reservas table. -/
def MovresOk (T : List MovRow) : Prop :=
  ∀ m ∈ T, pyStrip m.idMov ≠ "" ∧ pyStrip m.reserva = m.reserva ∧ pyStrip m.tipo = m.tipo

/-- Spec-side description (spec 4.5): the deposits of a reserve are the
movements whose Tipo, stripped and lowered, contains "aporte". -/
def depositos (movs : List MovRow) (i : String) : Rat :=
  ((movs.filter (fun m => m.idReserva == i &&
    hasSub "aporte" (pyLower (pyStrip m.tipo)))).map (fun m => m.valor)).sum

/-- Spec-side description (spec 4.5): the withdrawals of a reserve are all its
movements that are not deposits. -/
def retiradas (movs : List MovRow) (i : String) : Rat :=
  ((movs.filter (fun m => m.idReserva == i &&
    !(hasSub "aporte" (pyLower (pyStrip m.tipo))))).map (fun m => m.valor)).sum

/-- Number of (case-insensitive) Geral rows in a metas table. -/
def countGeral (l : List MetaRow) : Nat :=
  (l.filter (fun m => pyLower m.categoria == "geral")).length

/-- Trivial string parsers used for concrete witnesses. -/
def pnum0 : String → Option Rat := fun _ => none

/-- Trivial date parser used for concrete witnesses. -/
def pdate0 : String → Option SDate := fun _ => none

/-- A constant fresh-id supply used for concrete witnesses. -/
def fresh0 : Nat → String := fun _ => "a1b2"

/-- Concrete raw tables exercising the normalizers in witnesses. -/
def rawGastos0 : RawTable :=
  { cols := ["ID ", "Valor"],
    rows := [[("ID", RVal.na), ("Valor", RVal.rnum 10)],
      [(" ID", RVal.rstr "g1"), ("Data", RVal.rdate { ano := 2025, mes := 3, dia := 31 }),
       ("Origem", RVal.rstr "fixa"), ("RefFixa", RVal.rstr " f1 ")]] }

def rawMetas0 : RawTable :=
  { cols := METAS_COLS,
    rows := [[("Categoria", RVal.rstr " Geral "), ("Meta", RVal.rnum 5)]] }

def rawFixas0 : RawTable :=
  { cols := FIXAS_COLS,
    rows := [[("ID_Fixa", RVal.rstr "f1"), ("Descricao", RVal.rstr " Luz "),
      ("Ativo", RVal.rstr "sim"), ("Valor", RVal.rnum 100)]] }

def rawReservas0 : RawTable :=
  { cols := RESERVAS_COLS,
    rows := [[("ID_Reserva", RVal.rstr "r1"), ("Reserva", RVal.rstr "Emergencia"),
      ("Meta", RVal.rnum 6000), ("Ativo", RVal.rbool true)]] }

def rawMovres0 : RawTable :=
  { cols := MOVRES_COLS,
    rows := [[("ID_Mov", RVal.rstr "m1"), ("ID_Reserva", RVal.rstr "r1"),
      ("Valor", RVal.rnum 1000)]] }

/-- A concrete normalized ledger row used in witnesses. -/
def gasto0 : GastoRow :=
  { gid := "g1", data := some { ano := 2025, mes := 1, dia := 15 }, categoria := "Lazer",
    subcategoria := "cinema", valor := 100, pagamento := "Cartão Nubank", quem := "Roney",
    obs := "", origem := "", refFixa := "" }

/-- A concrete materialized fixed-bill ledger row used in witnesses. -/
def gasto1 : GastoRow :=
  { gid := "g2", data := some { ano := 2025, mes := 1, dia := 5 }, categoria := "Moradia",
    subcategoria := "", valor := 500, pagamento := "PIX", quem := "Adriele", obs := "",
    origem := "FIXA", refFixa := "f1" }

/-- A concrete active bill template used in witnesses. -/
def fixa0 : FixaRow :=
  { idFixa := "f1", descricao := "Aluguel", categoria := "Moradia", valor := 500,
    diaVenc := 31, pagamento := "PIX", quem := "Adriele", ativo := true, obs := "" }

/-- A concrete reserve and its movements used in witnesses. -/
def reserva0 : ReservaRow :=
  { idReserva := "r1", reserva := "Emergencia", meta := 6000, ativo := true, obs := "" }

def reserva1 : ReservaRow :=
  { idReserva := "r2", reserva := "Saude", meta := 1000, ativo := true, obs := "" }

def mov0 : MovRow :=
  { idMov := "m1", data := some { ano := 2025, mes := 1, dia := 2 }, idReserva := "r1",
    reserva := "Emergencia", tipo := "Aporte", valor := 1000, quem := "Roney", obs := "" }

def mov1 : MovRow :=
  { idMov := "m2", data := some { ano := 2025, mes := 2, dia := 2 }, idReserva := "r1",
    reserva := "Emergencia", tipo := "Aporte", valor := 500, quem := "Adriele", obs := "" }

def mov2 : MovRow :=
  { idMov := "m3", data := some { ano := 2025, mes := 3, dia := 2 }, idReserva := "r1",
    reserva := "Emergencia", tipo := "Retirada", valor := 200, quem := "Roney", obs := "" }

def mov3 : MovRow :=
  { idMov := "m4", data := some { ano := 2025, mes := 3, dia := 9 }, idReserva := "r2",
    reserva := "Saude", tipo := "Aporte", valor := 50, quem := "Roney", obs := "" }

/-- A concrete application state used in witnesses and counterexamples. -/
def state0 : AppState :=
  { gastos := [gasto0], metas := [{ categoria := "Geral", meta := 0 }], fixas := [fixa0],
    reservas := [reserva0, reserva1], movres := [mov0, mov1, mov2, mov3] }

/-! ### Helper lemmas about the string primitives and id filling -/

theorem dropWhile_head_cases (p : Char → Bool) (l : List Char) :
    l.dropWhile p = [] ∨ ∃ a t, l.dropWhile p = a :: t ∧ p a = false := by
  induction l with
  | nil => exact Or.inl rfl
  | cons a l ih =>
    rw [List.dropWhile_cons]
    by_cases h : p a = true
    · simpa [h] using ih
    · exact Or.inr ⟨a, l, by simp [h], by simpa using h⟩

theorem dropWhile_fixed (p : Char → Bool) (l : List Char)
    (h : ∀ a t, l = a :: t → p a = false) : l.dropWhile p = l := by
  cases l with
  | nil => rfl
  | cons a t => rw [List.dropWhile_cons, h a t rfl]; simp

theorem stripChars_idem (l : List Char) : stripChars (stripChars l) = stripChars l := by
  have step2 : ∀ m : List Char, (m.dropWhile isWS).dropWhile isWS = m.dropWhile isWS := by
    intro m
    rcases dropWhile_head_cases isWS m with h | ⟨a, t, h, ha⟩
    · rw [h]; rfl
    · rw [h]; exact dropWhile_fixed _ _ (fun b u hb => by
        injection hb with h1 h2; rw [← h1]; exact ha)
  have step1 :
      ∀ m : List Char, ((m.dropWhile isWS).reverse.dropWhile isWS).reverse.dropWhile isWS =
        ((m.dropWhile isWS).reverse.dropWhile isWS).reverse := by
    intro m
    rcases dropWhile_head_cases isWS m with h | ⟨a, t, h, ha⟩
    · rw [h]; rfl
    · rw [h]
      have happ :
          ((a :: t).reverse).dropWhile isWS =
            if ((t.reverse).dropWhile isWS).isEmpty = true then [a]
            else (t.reverse).dropWhile isWS ++ [a] := by
        rw [show (a :: t).reverse = t.reverse ++ [a] by simp]
        rw [List.dropWhile_append]
        congr 1
        rw [List.dropWhile_cons, ha]
        simp
      by_cases he : ((t.reverse).dropWhile isWS).isEmpty = true
      · rw [happ, if_pos he]
        apply dropWhile_fixed
        intro b u hb
        simp only [List.reverse_cons, List.reverse_nil, List.nil_append] at hb
        injection hb with h1 h2
        rw [← h1]; exact ha
      · rw [happ, if_neg he]
        apply dropWhile_fixed
        intro b u hb
        rw [List.reverse_append] at hb
        simp only [List.reverse_cons, List.reverse_nil, List.nil_append, List.cons_append,
          List.cons.injEq] at hb
        rw [hb.1] at ha; exact ha
  show ((((((l.dropWhile isWS).reverse.dropWhile isWS).reverse).dropWhile
      isWS).reverse).dropWhile isWS).reverse =
    ((l.dropWhile isWS).reverse.dropWhile isWS).reverse
  rw [step1 l, List.reverse_reverse, step2]

theorem pyStrip_idem (s : String) : pyStrip (pyStrip s) = pyStrip s :=
  congrArg (fun l => String.mk l) (stripChars_idem s.data)

theorem pyLower_ne_empty {s : String} {w : String} (h : pyLower s = w) (hw : w.data ≠ []) :
    s ≠ "" := by
  intro hs
  rw [hs] at h
  apply hw
  rw [← h]
  rfl

theorem fillIds_of_nonblank (fresh : Nat → String) (l : List String)
    (h : ∀ s ∈ l, pyStrip s ≠ "") : ∀ k, fillIds fresh l k = l := by
  induction l with
  | nil => intro k; rfl
  | cons s t ih =>
    intro k
    rw [fillIds, if_neg (h s (List.mem_cons_self s t))]
    rw [ih (fun x hx => h x (List.mem_cons_of_mem s hx)) k]

theorem fillIds_nonblank (fresh : Nat → String) (hf : ∀ j, pyStrip (fresh j) ≠ "")
    (l : List String) : ∀ k, ∀ s ∈ fillIds fresh l k, pyStrip s ≠ "" := by
  induction l with
  | nil => intro k s hs; simp [fillIds] at hs
  | cons a t ih =>
    intro k s hs
    rw [fillIds] at hs
    by_cases h : pyStrip a = ""
    · rw [if_pos h] at hs
      rcases List.mem_cons.mp hs with hh | ht
      · rw [hh]; exact hf k
      · exact ih (k + 1) s ht
    · rw [if_neg h] at hs
      rcases List.mem_cons.mp hs with hh | ht
      · rw [hh]; exact h
      · exact ih k s ht

/-! ### Round-trip lemmas: a normalized row written back to the dataframe and
re-read through the same coercions is unchanged -/

theorem stripKeys_gasto (g : GastoRow) : stripKeys (gastoToRawRow g) = gastoToRawRow g := rfl

theorem stripKeys_meta (m : MetaRow) : stripKeys (metaToRawRow m) = metaToRawRow m := rfl

theorem stripKeys_fixa (f : FixaRow) : stripKeys (fixaToRawRow f) = fixaToRawRow f := rfl

theorem stripKeys_reserva (x : ReservaRow) :
    stripKeys (reservaToRawRow x) = reservaToRawRow x := rfl

theorem stripKeys_mov (m : MovRow) : stripKeys (movToRawRow m) = movToRawRow m := rfl

theorem lookup_gasto_id (g : GastoRow) :
    lookupCell (gastoToRawRow g) "ID" = RVal.rstr g.gid := rfl

theorem gasto_roundtrip (pnum : String → Option Rat) (pdate : String → Option SDate)
    (g : GastoRow) : gastoOfRow pnum pdate g.gid (gastoToRawRow g) = g := by
  cases g with
  | mk gid data categoria subcategoria valor pagamento quem obs origem refFixa =>
    cases data <;> rfl

theorem meta_roundtrip (pnum : String → Option Rat) (m : MetaRow)
    (h : pyStrip m.categoria = m.categoria) : metaOfRow pnum (metaToRawRow m) = m := by
  cases m with
  | mk categoria meta =>
    show MetaRow.mk (pyStrip categoria) meta = MetaRow.mk categoria meta
    rw [h]

theorem lookup_fixa_ativo (f : FixaRow) :
    lookupCell (fixaToRawRow f) "Ativo" = RVal.rbool f.ativo := rfl

theorem fixa_roundtrip (pnum : String → Option Rat) (f : FixaRow)
    (hd : pyStrip f.descricao = f.descricao) (hc : pyStrip f.categoria = f.categoria) :
    fixaOfRow pnum f.idFixa f.ativo (fixaToRawRow f) = f := by
  cases f with
  | mk idFixa descricao categoria valor diaVenc pagamento quem ativo obs =>
    show FixaRow.mk idFixa (pyStrip descricao) (pyStrip categoria) valor
      (ratTrunc (diaVenc : Rat)) pagamento quem ativo obs =
      FixaRow.mk idFixa descricao categoria valor diaVenc pagamento quem ativo obs
    rw [hd, hc]
    have : ratTrunc ((diaVenc : Int) : Rat) = diaVenc := by
      unfold ratTrunc
      rw [Rat.intCast_num, Rat.intCast_den]
      exact Int.tdiv_one diaVenc
    rw [this]

theorem reserva_roundtrip (pnum : String → Option Rat) (x : ReservaRow)
    (hr : pyStrip x.reserva = x.reserva) :
    reservaOfRow pnum x.idReserva x.ativo (reservaToRawRow x) = x := by
  cases x with
  | mk idReserva reserva meta ativo obs =>
    show ReservaRow.mk idReserva (pyStrip reserva) meta ativo obs =
      ReservaRow.mk idReserva reserva meta ativo obs
    rw [hr]

theorem mov_roundtrip (pnum : String → Option Rat) (pdate : String → Option SDate)
    (m : MovRow) (hr : pyStrip m.reserva = m.reserva) (ht : pyStrip m.tipo = m.tipo) :
    movOfRow pnum pdate m.idMov (movToRawRow m) = m := by
  cases m with
  | mk idMov data idReserva reserva tipo valor quem obs =>
    cases data with
    | none =>
      show MovRow.mk idMov none idReserva (pyStrip reserva) (pyStrip tipo) valor quem obs =
        MovRow.mk idMov none idReserva reserva tipo valor quem obs
      rw [hr, ht]
    | some d =>
      show MovRow.mk idMov (some d) idReserva (pyStrip reserva) (pyStrip tipo) valor quem obs =
        MovRow.mk idMov (some d) idReserva reserva tipo valor quem obs
      rw [hr, ht]

/-! ### The normalizers are the identity (and report no change) on
normalized tables -/

theorem ensure_gastos_fixed (pnum : String → Option Rat) (pdate : String → Option SDate)
    (fresh : Nat → String) (T : List GastoRow) (h : GastosOk T) :
    ensure_gastos_schema pnum pdate fresh (gastosToRaw T) = (T, false) := by
  have hrows : (gastosToRaw T).rows.map stripKeys = T.map gastoToRawRow := by
    show (T.map gastoToRawRow).map stripKeys = T.map gastoToRawRow
    rw [List.map_map]
    exact List.map_congr_left fun g _ => stripKeys_gasto g
  have hids : (T.map gastoToRawRow).map
      (fun r => (rvalToStrOpt (lookupCell r "ID")).getD "") = T.map (fun g => g.gid) := by
    rw [List.map_map]; rfl
  show (((fillIds fresh (((gastosToRaw T).rows.map stripKeys).map
      (fun r => (rvalToStrOpt (lookupCell r "ID")).getD "")) 0).zip
      ((gastosToRaw T).rows.map stripKeys)).map (fun p => gastoOfRow pnum pdate p.1 p.2),
    colsMissing GASTOS_COLS GASTOS_COLS ||
      ((((gastosToRaw T).rows.map stripKeys).map
        (fun r => (rvalToStrOpt (lookupCell r "ID")).getD "")).any
          (fun s => pyStrip s == ""))) = (T, false)
  rw [hrows, hids]
  have hnb : ∀ s ∈ T.map (fun g => g.gid), pyStrip s ≠ "" := by
    intro s hs
    rcases List.mem_map.mp hs with ⟨g, hg, rfl⟩
    exact h g hg
  rw [fillIds_of_nonblank fresh _ hnb 0]
  have hany : (T.map (fun g => g.gid)).any (fun s => pyStrip s == "") = false :=
    List.any_eq_false.mpr (fun s hs hb => hnb s hs (by rwa [beq_iff_eq] at hb))
  rw [hany]
  have hcols : colsMissing GASTOS_COLS GASTOS_COLS = false := by decide
  rw [hcols]
  rw [List.zip_map', List.map_map]
  have : ((fun p => gastoOfRow pnum pdate (Prod.fst p) (Prod.snd p)) ∘
      fun g => (g.gid, gastoToRawRow g)) = fun g : GastoRow => g := by
    funext g
    exact gasto_roundtrip pnum pdate g
  rw [this]
  simp

theorem ensure_metas_fixed (pnum : String → Option Rat) (T : List MetaRow) (h : MetasOk T) :
    ensure_metas_schema pnum (metasToRaw T) = (T, false) := by
  obtain ⟨h1, m0, hm0, hgeral⟩ := h
  have hrows : (metasToRaw T).rows.map stripKeys = T.map metaToRawRow := by
    show (T.map metaToRawRow).map stripKeys = T.map metaToRawRow
    rw [List.map_map]
    exact List.map_congr_left fun m _ => stripKeys_meta m
  have hout0 : (T.map metaToRawRow).map (metaOfRow pnum) = T := by
    rw [List.map_map]
    have := List.map_congr_left (l := T)
      (f := metaOfRow pnum ∘ metaToRawRow) (g := fun m => m)
      (fun m hm => meta_roundtrip pnum m (h1 m hm).1)
    rw [this]
    simp
  have hhas : T.any (fun m => pyLower m.categoria == "geral") = true :=
    List.any_eq_true.mpr ⟨m0, hm0, by rw [beq_iff_eq]; exact hgeral⟩
  show (((if (((metasToRaw T).rows.map stripKeys).map (metaOfRow pnum)).any
        (fun m => pyLower m.categoria == "geral") then
        ((metasToRaw T).rows.map stripKeys).map (metaOfRow pnum)
      else ((metasToRaw T).rows.map stripKeys).map (metaOfRow pnum) ++
        [{ categoria := "Geral", meta := 0 }]).filter (fun m => pyStrip m.categoria != "")),
    colsMissing METAS_COLS METAS_COLS ||
      !(((metasToRaw T).rows.map stripKeys).map (metaOfRow pnum)).any
        (fun m => pyLower m.categoria == "geral")) = (T, false)
  rw [hrows, hout0, hhas]
  have hfil : T.filter (fun m => pyStrip m.categoria != "") = T :=
    List.filter_eq_self.mpr (fun m hm => by
      rw [bne_iff_ne, (h1 m hm).1]
      exact (h1 m hm).2)
  have hcols : colsMissing METAS_COLS METAS_COLS = false := by decide
  rw [hcols]
  simp [hfil]

theorem ensure_fixas_fixed (pnum : String → Option Rat) (fresh : Nat → String)
    (T : List FixaRow) (h : FixasOk T) :
    ensure_fixas_schema pnum fresh (fixasToRaw T) = (T, false) := by
  have hrows : (fixasToRaw T).rows.map stripKeys = T.map fixaToRawRow := by
    show (T.map fixaToRawRow).map stripKeys = T.map fixaToRawRow
    rw [List.map_map]
    exact List.map_congr_left fun f _ => stripKeys_fixa f
  have hids : (T.map fixaToRawRow).map
      (fun r => (rvalToStrOpt (lookupCell r "ID_Fixa")).getD "") = T.map (fun f => f.idFixa) := by
    rw [List.map_map]; rfl
  have hbool : (T.map fixaToRawRow).all (fun r => isRBool (lookupCell r "Ativo")) = true :=
    List.all_eq_true.mpr (fun r hr => by
      rcases List.mem_map.mp hr with ⟨f, hf, rfl⟩
      rfl)
  show ((((fillIds fresh (((fixasToRaw T).rows.map stripKeys).map
      (fun r => (rvalToStrOpt (lookupCell r "ID_Fixa")).getD "")) 0).zip
      ((fixasToRaw T).rows.map stripKeys)).map (fun p => fixaOfRow pnum p.1
        (ativoOf (((fixasToRaw T).rows.map stripKeys).all
          (fun r => isRBool (lookupCell r "Ativo"))) (lookupCell p.2 "Ativo")) p.2)).filter
        (fun f => pyStrip f.descricao != ""),
    colsMissing FIXAS_COLS FIXAS_COLS ||
      ((((fixasToRaw T).rows.map stripKeys).map
        (fun r => (rvalToStrOpt (lookupCell r "ID_Fixa")).getD "")).any
          (fun s => pyStrip s == "")) ||
      !((fixasToRaw T).rows.map stripKeys).all (fun r => isRBool (lookupCell r "Ativo"))) =
    (T, false)
  rw [hrows, hids, hbool]
  have hnb : ∀ s ∈ T.map (fun f => f.idFixa), pyStrip s ≠ "" := by
    intro s hs
    rcases List.mem_map.mp hs with ⟨f, hf, rfl⟩
    exact (h f hf).1
  rw [fillIds_of_nonblank fresh _ hnb 0]
  have hany : (T.map (fun f => f.idFixa)).any (fun s => pyStrip s == "") = false :=
    List.any_eq_false.mpr (fun s hs hb => hnb s hs (by rwa [beq_iff_eq] at hb))
  rw [hany]
  have hcols : colsMissing FIXAS_COLS FIXAS_COLS = false := by decide
  rw [hcols]
  rw [List.zip_map', List.map_map]
  have hmap : T.map ((fun p : String × List (String × RVal) =>
      fixaOfRow pnum p.1 (ativoOf true (lookupCell p.2 "Ativo")) p.2) ∘
      (fun f : FixaRow => (f.idFixa, fixaToRawRow f))) = T := by
    have h1 : T.map ((fun p : String × List (String × RVal) =>
        fixaOfRow pnum p.1 (ativoOf true (lookupCell p.2 "Ativo")) p.2) ∘
        (fun f : FixaRow => (f.idFixa, fixaToRawRow f))) = T.map (fun f => f) :=
      List.map_congr_left (fun f hf =>
        fixa_roundtrip pnum f (h f hf).2.1 (h f hf).2.2.2)
    rw [h1]
    simp
  rw [hmap]
  have hfil : T.filter (fun f => pyStrip f.descricao != "") = T :=
    List.filter_eq_self.mpr (fun f hf => by
      rw [bne_iff_ne, (h f hf).2.1]
      exact (h f hf).2.2.1)
  rw [hfil]
  simp

theorem ensure_reservas_fixed (pnum : String → Option Rat) (fresh : Nat → String)
    (T : List ReservaRow) (h : ReservasOk T) :
    ensure_reservas_schema pnum fresh (reservasToRaw T) = (T, false) := by
  have hrows : (reservasToRaw T).rows.map stripKeys = T.map reservaToRawRow := by
    show (T.map reservaToRawRow).map stripKeys = T.map reservaToRawRow
    rw [List.map_map]
    exact List.map_congr_left fun x _ => stripKeys_reserva x
  have hids : (T.map reservaToRawRow).map
      (fun r => (rvalToStrOpt (lookupCell r "ID_Reserva")).getD "") =
      T.map (fun x => x.idReserva) := by
    rw [List.map_map]; rfl
  have hbool : (T.map reservaToRawRow).all (fun r => isRBool (lookupCell r "Ativo")) = true :=
    List.all_eq_true.mpr (fun r hr => by
      rcases List.mem_map.mp hr with ⟨x, hx, rfl⟩
      rfl)
  show ((((fillIds fresh (((reservasToRaw T).rows.map stripKeys).map
      (fun r => (rvalToStrOpt (lookupCell r "ID_Reserva")).getD "")) 0).zip
      ((reservasToRaw T).rows.map stripKeys)).map (fun p => reservaOfRow pnum p.1
        (ativoOf (((reservasToRaw T).rows.map stripKeys).all
          (fun r => isRBool (lookupCell r "Ativo"))) (lookupCell p.2 "Ativo")) p.2)).filter
        (fun x => pyStrip x.reserva != ""),
    colsMissing RESERVAS_COLS RESERVAS_COLS ||
      ((((reservasToRaw T).rows.map stripKeys).map
        (fun r => (rvalToStrOpt (lookupCell r "ID_Reserva")).getD "")).any
          (fun s => pyStrip s == "")) ||
      !((reservasToRaw T).rows.map stripKeys).all (fun r => isRBool (lookupCell r "Ativo"))) =
    (T, false)
  rw [hrows, hids, hbool]
  have hnb : ∀ s ∈ T.map (fun x => x.idReserva), pyStrip s ≠ "" := by
    intro s hs
    rcases List.mem_map.mp hs with ⟨x, hx, rfl⟩
    exact (h x hx).1
  rw [fillIds_of_nonblank fresh _ hnb 0]
  have hany : (T.map (fun x => x.idReserva)).any (fun s => pyStrip s == "") = false :=
    List.any_eq_false.mpr (fun s hs hb => hnb s hs (by rwa [beq_iff_eq] at hb))
  rw [hany]
  have hcols : colsMissing RESERVAS_COLS RESERVAS_COLS = false := by decide
  rw [hcols]
  rw [List.zip_map', List.map_map]
  have hmap : T.map ((fun p : String × List (String × RVal) =>
      reservaOfRow pnum p.1 (ativoOf true (lookupCell p.2 "Ativo")) p.2) ∘
      (fun x : ReservaRow => (x.idReserva, reservaToRawRow x))) = T := by
    have h1 : T.map ((fun p : String × List (String × RVal) =>
        reservaOfRow pnum p.1 (ativoOf true (lookupCell p.2 "Ativo")) p.2) ∘
        (fun x : ReservaRow => (x.idReserva, reservaToRawRow x))) = T.map (fun x => x) :=
      List.map_congr_left (fun x hx => reserva_roundtrip pnum x (h x hx).2.1)
    rw [h1]
    simp
  rw [hmap]
  have hfil : T.filter (fun x => pyStrip x.reserva != "") = T :=
    List.filter_eq_self.mpr (fun x hx => by
      rw [bne_iff_ne, (h x hx).2.1]
      exact (h x hx).2.2)
  rw [hfil]
  simp

theorem ensure_movres_fixed (pnum : String → Option Rat) (pdate : String → Option SDate)
    (fresh : Nat → String) (T : List MovRow) (h : MovresOk T) :
    ensure_movres_schema pnum pdate fresh (movresToRaw T) = (T, false) := by
  have hrows : (movresToRaw T).rows.map stripKeys = T.map movToRawRow := by
    show (T.map movToRawRow).map stripKeys = T.map movToRawRow
    rw [List.map_map]
    exact List.map_congr_left fun m _ => stripKeys_mov m
  have hids : (T.map movToRawRow).map
      (fun r => (rvalToStrOpt (lookupCell r "ID_Mov")).getD "") = T.map (fun m => m.idMov) := by
    rw [List.map_map]; rfl
  show (((fillIds fresh (((movresToRaw T).rows.map stripKeys).map
      (fun r => (rvalToStrOpt (lookupCell r "ID_Mov")).getD "")) 0).zip
      ((movresToRaw T).rows.map stripKeys)).map (fun p => movOfRow pnum pdate p.1 p.2),
    colsMissing MOVRES_COLS MOVRES_COLS ||
      ((((movresToRaw T).rows.map stripKeys).map
        (fun r => (rvalToStrOpt (lookupCell r "ID_Mov")).getD "")).any
          (fun s => pyStrip s == ""))) = (T, false)
  rw [hrows, hids]
  have hnb : ∀ s ∈ T.map (fun m => m.idMov), pyStrip s ≠ "" := by
    intro s hs
    rcases List.mem_map.mp hs with ⟨m, hm, rfl⟩
    exact (h m hm).1
  rw [fillIds_of_nonblank fresh _ hnb 0]
  have hany : (T.map (fun m => m.idMov)).any (fun s => pyStrip s == "") = false :=
    List.any_eq_false.mpr (fun s hs hb => hnb s hs (by rwa [beq_iff_eq] at hb))
  rw [hany]
  have hcols : colsMissing MOVRES_COLS MOVRES_COLS = false := by decide
  rw [hcols]
  rw [List.zip_map', List.map_map]
  have hmap : T.map ((fun p : String × List (String × RVal) =>
      movOfRow pnum pdate p.1 p.2) ∘ (fun m : MovRow => (m.idMov, movToRawRow m))) = T := by
    have h1 : T.map ((fun p : String × List (String × RVal) =>
        movOfRow pnum pdate p.1 p.2) ∘ (fun m : MovRow => (m.idMov, movToRawRow m))) =
        T.map (fun m => m) :=
      List.map_congr_left (fun m hm =>
        mov_roundtrip pnum pdate m (h m hm).2.1 (h m hm).2.2)
    rw [h1]
    simp
  rw [hmap]
  simp

theorem ensure_gastos_ok (pnum : String → Option Rat) (pdate : String → Option SDate)
    (fresh : Nat → String) (hf : ∀ j, pyStrip (fresh j) ≠ "") (t : RawTable) :
    GastosOk (ensure_gastos_schema pnum pdate fresh t).1 := by
  intro g hg
  have hg2 : g ∈ ((fillIds fresh ((t.rows.map stripKeys).map
      (fun r => (rvalToStrOpt (lookupCell r "ID")).getD "")) 0).zip
      (t.rows.map stripKeys)).map (fun p => gastoOfRow pnum pdate p.1 p.2) := hg
  rcases List.mem_map.mp hg2 with ⟨p, hp, rfl⟩
  obtain ⟨a, b⟩ := p
  exact fillIds_nonblank fresh hf _ 0 a (List.of_mem_zip hp).1

theorem ensure_metas_ok (pnum : String → Option Rat) (t : RawTable) :
    MetasOk (ensure_metas_schema pnum t).1 := by
  have key : ∀ L : List MetaRow, (∀ m ∈ L, pyStrip m.categoria = m.categoria) →
      MetasOk ((if L.any (fun m => pyLower m.categoria == "geral") then L
        else L ++ [{ categoria := "Geral", meta := 0 }]).filter
        (fun m => pyStrip m.categoria != "")) := by
    intro L hL
    constructor
    · intro m hm
      rw [List.mem_filter] at hm
      obtain ⟨hm1, hm2⟩ := hm
      have hstrip : pyStrip m.categoria = m.categoria := by
        by_cases hg : L.any (fun m => pyLower m.categoria == "geral")
        · rw [if_pos hg] at hm1
          exact hL m hm1
        · rw [if_neg hg] at hm1
          rcases List.mem_append.mp hm1 with h1 | h1
          · exact hL m h1
          · rw [List.mem_singleton.mp h1]
            decide
      rw [bne_iff_ne, hstrip] at hm2
      exact ⟨hstrip, hm2⟩
    · by_cases hg : L.any (fun m => pyLower m.categoria == "geral")
      · rcases List.any_eq_true.mp hg with ⟨m0, hm0, hb⟩
        rw [beq_iff_eq] at hb
        refine ⟨m0, ?_, hb⟩
        rw [List.mem_filter]
        refine ⟨by rw [if_pos hg]; exact hm0, ?_⟩
        rw [bne_iff_ne, hL m0 hm0]
        exact pyLower_ne_empty hb (by decide)
      · refine ⟨{ categoria := "Geral", meta := 0 }, ?_, by decide⟩
        rw [List.mem_filter]
        refine ⟨?_, by decide⟩
        rw [if_neg hg]
        exact List.mem_append_right _ (List.mem_singleton.mpr rfl)
  have hL : ∀ m ∈ (t.rows.map stripKeys).map (metaOfRow pnum),
      pyStrip m.categoria = m.categoria := by
    intro m hm
    rcases List.mem_map.mp hm with ⟨r, hr, rfl⟩
    exact pyStrip_idem _
  exact key ((t.rows.map stripKeys).map (metaOfRow pnum)) hL

theorem ensure_fixas_ok (pnum : String → Option Rat) (fresh : Nat → String)
    (hf : ∀ j, pyStrip (fresh j) ≠ "") (t : RawTable) :
    FixasOk (ensure_fixas_schema pnum fresh t).1 := by
  intro f hfm
  have h0 : f ∈ (((fillIds fresh ((t.rows.map stripKeys).map
      (fun r => (rvalToStrOpt (lookupCell r "ID_Fixa")).getD "")) 0).zip
      (t.rows.map stripKeys)).map (fun p => fixaOfRow pnum p.1
        (ativoOf ((t.rows.map stripKeys).all (fun r => isRBool (lookupCell r "Ativo")))
          (lookupCell p.2 "Ativo")) p.2)).filter
        (fun f => pyStrip f.descricao != "") := hfm
  rw [List.mem_filter] at h0
  obtain ⟨h1, h2⟩ := h0
  rcases List.mem_map.mp h1 with ⟨p, hp, rfl⟩
  obtain ⟨a, b⟩ := p
  refine ⟨fillIds_nonblank fresh hf _ 0 a (List.of_mem_zip hp).1, pyStrip_idem _, ?_,
    pyStrip_idem _⟩
  rw [bne_iff_ne] at h2
  rw [show (fixaOfRow pnum (a, b).1 (ativoOf ((t.rows.map stripKeys).all
    (fun r => isRBool (lookupCell r "Ativo"))) (lookupCell (a, b).2 "Ativo"))
    (a, b).2).descricao = pyStrip ((rvalToStrOpt (lookupCell b "Descricao")).getD "")
    from rfl] at h2 ⊢
  rwa [pyStrip_idem] at h2

theorem ensure_reservas_ok (pnum : String → Option Rat) (fresh : Nat → String)
    (hf : ∀ j, pyStrip (fresh j) ≠ "") (t : RawTable) :
    ReservasOk (ensure_reservas_schema pnum fresh t).1 := by
  intro x hxm
  have h0 : x ∈ (((fillIds fresh ((t.rows.map stripKeys).map
      (fun r => (rvalToStrOpt (lookupCell r "ID_Reserva")).getD "")) 0).zip
      (t.rows.map stripKeys)).map (fun p => reservaOfRow pnum p.1
        (ativoOf ((t.rows.map stripKeys).all (fun r => isRBool (lookupCell r "Ativo")))
          (lookupCell p.2 "Ativo")) p.2)).filter
        (fun x => pyStrip x.reserva != "") := hxm
  rw [List.mem_filter] at h0
  obtain ⟨h1, h2⟩ := h0
  rcases List.mem_map.mp h1 with ⟨p, hp, rfl⟩
  obtain ⟨a, b⟩ := p
  refine ⟨fillIds_nonblank fresh hf _ 0 a (List.of_mem_zip hp).1, pyStrip_idem _, ?_⟩
  rw [bne_iff_ne] at h2
  rw [show (reservaOfRow pnum (a, b).1 (ativoOf ((t.rows.map stripKeys).all
    (fun r => isRBool (lookupCell r "Ativo"))) (lookupCell (a, b).2 "Ativo"))
    (a, b).2).reserva = pyStrip ((rvalToStrOpt (lookupCell b "Reserva")).getD "")
    from rfl] at h2 ⊢
  rwa [pyStrip_idem] at h2

theorem ensure_movres_ok (pnum : String → Option Rat) (pdate : String → Option SDate)
    (fresh : Nat → String) (hf : ∀ j, pyStrip (fresh j) ≠ "") (t : RawTable) :
    MovresOk (ensure_movres_schema pnum pdate fresh t).1 := by
  intro m hm
  have hm2 : m ∈ ((fillIds fresh ((t.rows.map stripKeys).map
      (fun r => (rvalToStrOpt (lookupCell r "ID_Mov")).getD "")) 0).zip
      (t.rows.map stripKeys)).map (fun p => movOfRow pnum pdate p.1 p.2) := hm
  rcases List.mem_map.mp hm2 with ⟨p, hp, rfl⟩
  obtain ⟨a, b⟩ := p
  exact ⟨fillIds_nonblank fresh hf _ 0 a (List.of_mem_zip hp).1, pyStrip_idem _, pyStrip_idem _⟩

/-! ### Rounding lemmas for the installment splitter -/

theorem ratFloor_eq (q : Rat) : ratFloor q = ⌊q⌋ := by
  unfold ratFloor
  rw [Int.fdiv_eq_ediv _ (by positivity : (0 : Int) ≤ (q.den : Int))]
  exact Rat.floor_def.symm

theorem halfEvenRound_intCast (m : Int) : halfEvenRound ((m : Int) : Rat) = m := by
  unfold halfEvenRound
  rw [ratFloor_eq, Int.floor_intCast, sub_self]
  norm_num

theorem halfEvenRound_sub_int (q : Rat) (m : Int) (h : q - (⌊q⌋ : Rat) ≠ 1 / 2) :
    halfEvenRound (q - (m : Rat)) = halfEvenRound q - m := by
  unfold halfEvenRound
  rw [ratFloor_eq, ratFloor_eq, Int.floor_sub_int]
  have hfr : q - (m : Rat) - ((⌊q⌋ - m : Int) : Rat) = q - (⌊q⌋ : Rat) := by
    push_cast
    ring
  rw [hfr]
  rcases lt_trichotomy (q - (⌊q⌋ : Rat)) (1 / 2) with hlt | heq | hgt
  · rw [if_pos hlt, if_pos hlt]
  · exact absurd heq h
  · rw [if_neg (not_lt.mpr hgt.le), if_neg (not_lt.mpr hgt.le), if_pos hgt, if_pos hgt]
    omega

theorem round2_cent (k : Int) : round2 ((k : Rat) / 100) = (k : Rat) / 100 := by
  unfold round2
  have h1 : (100 : Rat) * ((k : Rat) / 100) = (k : Rat) := by
    field_simp
  rw [h1, halfEvenRound_intCast]

theorem round2_sub_cents (v : Rat) (k : Int) (htie : 100 * v - (⌊100 * v⌋ : Rat) ≠ 1 / 2) :
    round2 (v - (k : Rat) / 100) = round2 v - (k : Rat) / 100 := by
  unfold round2
  have h1 : (100 : Rat) * (v - (k : Rat) / 100) = 100 * v - (k : Rat) := by
    ring
  rw [h1, halfEvenRound_sub_int (100 * v) k htie]
  push_cast
  ring

theorem repartir_eq (v : Rat) (n0 : Int) :
    repartir_valor_em_parcelas v n0 =
      (List.replicate (max 1 n0).toNat (round2 (v / ((max 1 n0 : Int) : Rat)))).dropLast ++
      [round2 (round2 (v / ((max 1 n0 : Int) : Rat)) +
        round2 (v - round2 (round2 (v / ((max 1 n0 : Int) : Rat)) *
          ((max 1 n0 : Int) : Rat))))] := rfl

/-! ### Claims -/

/-- C1 counterexample: in the exact decimal model of python float `round`
(round half to even), the sum invariant fails at total = 0.035, n = 3: the
computed installments are [0.01, 0.01, 0.01] with sum 0.03, while
round(0.035, 2) = 0.04. -/
theorem repartir_sum_tie_cex :
    (repartir_valor_em_parcelas ((7 : Rat) / 200) 3).sum = 3 / 100 ∧
    round2 ((7 : Rat) / 200) = 4 / 100 ∧
    ¬ (repartir_valor_em_parcelas ((7 : Rat) / 200) 3).sum = round2 ((7 : Rat) / 200) :=
  ⟨by with_unfolding_all decide, by with_unfolding_all decide, by with_unfolding_all decide⟩

/-- C1 (amended): for every total >= 0 and integer n >= 1 such that 100·total
is not exactly halfway between two integers (no half-cent tie — binary float
inputs can never be at such a tie), `repartir_valor_em_parcelas` returns
exactly n amounts, every element except the last equals round(total / n, 2),
and the sum of all elements equals round(total, 2) exactly. -/
theorem repartir_parcelas_spec (v : Rat) (n : Int) (hv : 0 ≤ v) (hn : 1 ≤ n)
    (htie : 100 * v - (⌊100 * v⌋ : Rat) ≠ 1 / 2) :
    (repartir_valor_em_parcelas v n).length = n.toNat ∧
    (repartir_valor_em_parcelas v n).dropLast =
      List.replicate (n.toNat - 1) (round2 (v / (n : Rat))) ∧
    (repartir_valor_em_parcelas v n).sum = round2 v := by
  have hmax : max 1 n = n := max_eq_right hn
  have h1n : 1 ≤ n.toNat := by omega
  rw [repartir_eq, hmax]
  set B := round2 (v / (n : Rat)) with hBdef
  obtain ⟨b, hb⟩ : ∃ b : Int, B = (b : Rat) / 100 :=
    ⟨halfEvenRound (100 * (v / (n : Rat))), by rw [hBdef]; rfl⟩
  have hBn : round2 (B * (n : Rat)) = B * (n : Rat) := by
    rw [hb]
    have h2 : (b : Rat) / 100 * (n : Rat) = ((b * n : Int) : Rat) / 100 := by
      push_cast
      ring
    rw [h2, round2_cent]
  have hA : round2 (v - round2 (B * (n : Rat))) = round2 v - B * (n : Rat) := by
    rw [hBn, hb]
    have h2 : (b : Rat) / 100 * (n : Rat) = ((b * n : Int) : Rat) / 100 := by
      push_cast
      ring
    rw [h2, round2_sub_cents v (b * n) htie, ← h2]
  have hlast : round2 (B + (round2 v - B * (n : Rat))) = B + (round2 v - B * (n : Rat)) := by
    rw [hb]
    have hr : round2 v = ((halfEvenRound (100 * v) : Int) : Rat) / 100 := rfl
    rw [hr]
    have h3 : (b : Rat) / 100 + (((halfEvenRound (100 * v) : Int) : Rat) / 100 -
        (b : Rat) / 100 * (n : Rat)) =
        ((b + (halfEvenRound (100 * v) - b * n) : Int) : Rat) / 100 := by
      push_cast
      ring
    rw [h3, round2_cent, ← h3]
  have hrep : List.replicate n.toNat B = List.replicate (n.toNat - 1) B ++ [B] := by
    conv_lhs => rw [show n.toNat = (n.toNat - 1) + 1 by omega]
    exact List.replicate_succ' _ _
  rw [hA, hlast, hrep, List.dropLast_concat]
  refine ⟨?_, ?_, ?_⟩
  · simp only [List.length_append, List.length_replicate, List.length_cons, List.length_nil]
    omega
  · exact List.dropLast_concat
  · rw [List.sum_append, List.sum_replicate, List.sum_cons, List.sum_nil]
    rw [nsmul_eq_mul]
    have h4 : ((n.toNat - 1 : Nat) : Rat) = ((n.toNat : Nat) : Rat) - 1 := by
      rw [Nat.cast_sub h1n, Nat.cast_one]
    have h5 : ((n.toNat : Nat) : Rat) = ((n : Int) : Rat) := by
      exact_mod_cast Int.toNat_of_nonneg (show (0 : Int) ≤ n by omega)
    rw [h4, h5]
    ring

/-- C1 witness: total = 100, n = 3 gives [33.33, 33.33, 33.34], summing to
round(100, 2) = 100. -/
theorem repartir_parcelas_spec_witness :
    ((0 : Rat) ≤ 100 ∧ (1 : Int) ≤ 3 ∧
      100 * (100 : Rat) - (⌊100 * (100 : Rat)⌋ : Rat) ≠ 1 / 2) ∧
    ((repartir_valor_em_parcelas 100 3).length = (3 : Int).toNat ∧
     (repartir_valor_em_parcelas 100 3).dropLast =
       List.replicate ((3 : Int).toNat - 1) (round2 ((100 : Rat) / ((3 : Int) : Rat))) ∧
     (repartir_valor_em_parcelas 100 3).sum = round2 100) :=
  ⟨⟨by norm_num, by norm_num, by with_unfolding_all decide⟩,
   repartir_parcelas_spec 100 3 (by norm_num) (by norm_num) (by with_unfolding_all decide)⟩

/-- C2: each of the five schema normalizers is idempotent: applied to its own
output (written back to a raw dataframe), it returns that output unchanged and
reports changed = false.  The fresh-id supplies stand for uuid4 hex strings and
are assumed non-blank. -/
theorem normalize_idempotente (pnum : String → Option Rat) (pdate : String → Option SDate)
    (fresh1 fresh2 : Nat → String) (hf1 : ∀ j, pyStrip (fresh1 j) ≠ "")
    (hf2 : ∀ j, pyStrip (fresh2 j) ≠ "") (tg tm tf tr tv : RawTable) :
    ensure_gastos_schema pnum pdate fresh2
        (gastosToRaw (ensure_gastos_schema pnum pdate fresh1 tg).1) =
      ((ensure_gastos_schema pnum pdate fresh1 tg).1, false) ∧
    ensure_metas_schema pnum (metasToRaw (ensure_metas_schema pnum tm).1) =
      ((ensure_metas_schema pnum tm).1, false) ∧
    ensure_fixas_schema pnum fresh2 (fixasToRaw (ensure_fixas_schema pnum fresh1 tf).1) =
      ((ensure_fixas_schema pnum fresh1 tf).1, false) ∧
    ensure_reservas_schema pnum fresh2
        (reservasToRaw (ensure_reservas_schema pnum fresh1 tr).1) =
      ((ensure_reservas_schema pnum fresh1 tr).1, false) ∧
    ensure_movres_schema pnum pdate fresh2
        (movresToRaw (ensure_movres_schema pnum pdate fresh1 tv).1) =
      ((ensure_movres_schema pnum pdate fresh1 tv).1, false) :=
  ⟨ensure_gastos_fixed pnum pdate fresh2 _ (ensure_gastos_ok pnum pdate fresh1 hf1 tg),
   ensure_metas_fixed pnum _ (ensure_metas_ok pnum tm),
   ensure_fixas_fixed pnum fresh2 _ (ensure_fixas_ok pnum fresh1 hf1 tf),
   ensure_reservas_fixed pnum fresh2 _ (ensure_reservas_ok pnum fresh1 hf1 tr),
   ensure_movres_fixed pnum pdate fresh2 _ (ensure_movres_ok pnum pdate fresh1 hf1 tv)⟩

/-- C2 witness: concrete raw tables (blank id, padded header, textual booleans,
missing Tipo) run through each normalizer twice. -/
theorem normalize_idempotente_witness :
    ensure_gastos_schema pnum0 pdate0 fresh0
        (gastosToRaw (ensure_gastos_schema pnum0 pdate0 fresh0 rawGastos0).1) =
      ((ensure_gastos_schema pnum0 pdate0 fresh0 rawGastos0).1, false) ∧
    ensure_metas_schema pnum0 (metasToRaw (ensure_metas_schema pnum0 rawMetas0).1) =
      ((ensure_metas_schema pnum0 rawMetas0).1, false) ∧
    ensure_fixas_schema pnum0 fresh0 (fixasToRaw (ensure_fixas_schema pnum0 fresh0 rawFixas0).1) =
      ((ensure_fixas_schema pnum0 fresh0 rawFixas0).1, false) ∧
    ensure_reservas_schema pnum0 fresh0
        (reservasToRaw (ensure_reservas_schema pnum0 fresh0 rawReservas0).1) =
      ((ensure_reservas_schema pnum0 fresh0 rawReservas0).1, false) ∧
    ensure_movres_schema pnum0 pdate0 fresh0
        (movresToRaw (ensure_movres_schema pnum0 pdate0 fresh0 rawMovres0).1) =
      ((ensure_movres_schema pnum0 pdate0 fresh0 rawMovres0).1, false) :=
  normalize_idempotente pnum0 pdate0 fresh0 fresh0
    (fun _ => by show pyStrip "a1b2" ≠ ""; decide)
    (fun _ => by show pyStrip "a1b2" ≠ ""; decide)
    rawGastos0 rawMetas0 rawFixas0 rawReservas0 rawMovres0

/-- C9 counterexample: two pre-existing Geral rows (differing in case) both
survive `_ensure_metas_schema`, so the output does not contain exactly one
Geral row. -/
theorem metas_geral_duplicada_cex :
    countGeral (ensure_metas_schema pnum0
      { cols := METAS_COLS,
        rows := [[("Categoria", RVal.rstr "Geral"), ("Meta", RVal.rnum 1)],
                 [("Categoria", RVal.rstr "geral"), ("Meta", RVal.rnum 2)]] }).1 = 2 ∧
    ¬ countGeral (ensure_metas_schema pnum0
      { cols := METAS_COLS,
        rows := [[("Categoria", RVal.rstr "Geral"), ("Meta", RVal.rnum 1)],
                 [("Categoria", RVal.rstr "geral"), ("Meta", RVal.rnum 2)]] }).1 = 1 :=
  ⟨by decide, by decide⟩

/-- C9 (amended): for every input metas table, the output of
`_ensure_metas_schema` contains at least one row whose Categoria equals Geral
case-insensitively (a zero-target Geral row is appended when none is present);
pre-existing duplicate Geral rows are all retained. -/
theorem metas_geral_presente (pnum : String → Option Rat) (t : RawTable) :
    1 ≤ countGeral (ensure_metas_schema pnum t).1 := by
  obtain ⟨-, m, hm, hgeral⟩ := ensure_metas_ok pnum t
  unfold countGeral
  have hmem : m ∈ (ensure_metas_schema pnum t).1.filter
      (fun m => pyLower m.categoria == "geral") :=
    List.mem_filter.mpr ⟨hm, by rw [beq_iff_eq]; exact hgeral⟩
  exact List.length_pos_of_mem hmem

/-- C10: in `calcular_saldos_reservas` a movement contributes +Valor to its
reserve balance iff its stripped, lowered Tipo contains the substring
"aporte", and -Valor otherwise; `_ensure_movres_schema` fills a missing Tipo
with "Aporte", which is therefore counted as a deposit, while an unrecognized
non-empty Tipo (e.g. the misspelling "Aporet") is counted as a withdrawal. -/
theorem sinal_movimento_spec (pnum : String → Option Rat) (pdate : String → Option SDate)
    (i : String) (r : List (String × RVal)) (movs : List MovRow) (m : MovRow) (idR : String) :
    (saldo_mov_reserva (movs ++ [m]) idR = saldo_mov_reserva movs idR +
      (if m.idReserva = idR then
        (if hasSub "aporte" (pyLower (pyStrip m.tipo)) then m.valor else -m.valor) else 0)) ∧
    (lookupCell r "Tipo" = RVal.na →
      (movOfRow pnum pdate i r).tipo = "Aporte" ∧
      sinal_mov (movOfRow pnum pdate i r).tipo = 1) ∧
    sinal_mov "Retirada" = -1 ∧ sinal_mov "Aporet" = -1 := by
  refine ⟨?_, ?_, ?_, ?_⟩
  · unfold saldo_mov_reserva
    rw [List.filter_append, List.map_append, List.sum_append]
    have hsing : List.filter (fun x => x.idReserva == idR) [m] =
        if m.idReserva = idR then [m] else [] := by
      by_cases hid : m.idReserva = idR
      · have hb : (m.idReserva == idR) = true := beq_iff_eq.mpr hid
        rw [if_pos hid]
        simp [List.filter, hb]
      · have hb : (m.idReserva == idR) = false := beq_eq_false_iff_ne.mpr hid
        rw [if_neg hid]
        simp [List.filter, hb]
    rw [hsing]
    by_cases hid : m.idReserva = idR
    · rw [if_pos hid, if_pos hid]
      simp only [List.map_cons, List.map_nil, List.sum_cons, List.sum_nil, add_zero]
      unfold sinal_mov
      by_cases ha : hasSub "aporte" (pyLower (pyStrip m.tipo)) = true
      · rw [if_pos ha, if_pos ha]
        ring
      · rw [if_neg ha, if_neg ha]
        ring
    · rw [if_neg hid, if_neg hid]
      simp
  · intro hna
    constructor
    · show pyStrip ((rvalToStrOpt (lookupCell r "Tipo")).getD "Aporte") = "Aporte"
      rw [hna]
      decide
    · show sinal_mov (pyStrip ((rvalToStrOpt (lookupCell r "Tipo")).getD "Aporte")) = 1
      rw [hna]
      unfold sinal_mov
      rw [if_pos (by decide)]
  · unfold sinal_mov
    rw [if_neg (by decide)]
  · unfold sinal_mov
    rw [if_neg (by decide)]

/-- C10 witness: a withdrawal movement appended to a ledger with one deposit,
and a raw movement row with no Tipo cell. -/
theorem sinal_movimento_spec_witness :
    (saldo_mov_reserva ([mov0] ++ [mov2]) "r1" = saldo_mov_reserva [mov0] "r1" +
      (if mov2.idReserva = "r1" then
        (if hasSub "aporte" (pyLower (pyStrip mov2.tipo)) then mov2.valor else -mov2.valor)
       else 0)) ∧
    ((movOfRow pnum0 pdate0 "m9" [("Valor", RVal.rnum 10)]).tipo = "Aporte" ∧
      sinal_mov (movOfRow pnum0 pdate0 "m9" [("Valor", RVal.rnum 10)]).tipo = 1) ∧
    sinal_mov "Retirada" = -1 ∧ sinal_mov "Aporet" = -1 := by
  obtain ⟨h1, h2, h3, h4⟩ :=
    sinal_movimento_spec pnum0 pdate0 "m9" [("Valor", RVal.rnum 10)] [mov0] mov2 "r1"
  exact ⟨h1, h2 rfl, h3, h4⟩

theorem clip0_eq_max (x : Rat) : clip0 x = max x 0 := by
  unfold clip0
  rcases le_or_lt 0 x with h | h
  · rw [if_neg (not_lt.mpr h), max_eq_left h]
  · rw [if_pos h, max_eq_right h.le]

theorem saldo_split (movs : List MovRow) (i : String) :
    saldo_mov_reserva movs i = depositos movs i - retiradas movs i := by
  induction movs with
  | nil => simp [saldo_mov_reserva, depositos, retiradas]
  | cons m t ih =>
    unfold saldo_mov_reserva depositos retiradas at ih ⊢
    rw [List.filter_cons, List.filter_cons, List.filter_cons]
    by_cases hid : (m.idReserva == i) = true
    · by_cases ha : hasSub "aporte" (pyLower (pyStrip m.tipo)) = true
      · rw [if_pos hid, if_pos (by simp [hid, ha]), if_neg (by simp [hid, ha])]
        rw [List.map_cons, List.sum_cons, List.map_cons, List.sum_cons, ih]
        unfold sinal_mov
        rw [if_pos ha]
        ring
      · rw [if_pos hid, if_neg (by simp [hid, ha]), if_pos (by simp [hid, ha])]
        rw [List.map_cons, List.sum_cons, List.map_cons, List.sum_cons, ih]
        unfold sinal_mov
        rw [if_neg ha]
        ring
    · rw [if_neg hid, if_neg (by simp [hid]), if_neg (by simp [hid])]
      exact ih

/-- C7: for every non-empty reserves table and every movements table,
`calcular_saldos_reservas` returns one row per reserve with
Saldo = sum of deposits minus sum of withdrawals, Percentual = Saldo/Meta*100
when Meta > 0 and 0 otherwise (in particular 0 when Meta = 0), and
Falta = max(Meta - Saldo, 0). -/
theorem saldos_reservas_spec (reservas : List ReservaRow) (movs : List MovRow)
    (hne : reservas ≠ []) :
    calcular_saldos_reservas reservas movs = reservas.map (fun r =>
      { idReserva := r.idReserva, reserva := r.reserva, meta := r.meta, ativo := r.ativo,
        obs := r.obs,
        saldo := depositos movs r.idReserva - retiradas movs r.idReserva,
        percentual := if (0 : Rat) < r.meta then
          (depositos movs r.idReserva - retiradas movs r.idReserva) / r.meta * 100 else 0,
        falta := max (r.meta - (depositos movs r.idReserva - retiradas movs r.idReserva)) 0 }) := by
  cases reservas with
  | nil => exact absurd rfl hne
  | cons r0 rest =>
    apply List.map_congr_left
    intro r hr
    have hs : (if movs.isEmpty then (0 : Rat) else saldo_mov_reserva movs r.idReserva) =
        depositos movs r.idReserva - retiradas movs r.idReserva := by
      by_cases he : movs.isEmpty = true
      · rw [if_pos he, List.isEmpty_iff.mp he]
        simp [depositos, retiradas]
      · rw [if_neg he]
        exact saldo_split movs r.idReserva
    simp only [hs, clip0_eq_max]

/-- C7 witness: reserve target 6000 with movements +1000, +500, -200 gives
balance 1500 - 200 = 1300, percent 65/3 (approximately 21.67) and
remaining 4700. -/
theorem saldos_reservas_spec_witness :
    (calcular_saldos_reservas [reserva0] [mov0, mov1, mov2] = [reserva0].map (fun r =>
      { idReserva := r.idReserva, reserva := r.reserva, meta := r.meta, ativo := r.ativo,
        obs := r.obs,
        saldo := depositos [mov0, mov1, mov2] r.idReserva -
          retiradas [mov0, mov1, mov2] r.idReserva,
        percentual := if (0 : Rat) < r.meta then
          (depositos [mov0, mov1, mov2] r.idReserva -
            retiradas [mov0, mov1, mov2] r.idReserva) / r.meta * 100 else 0,
        falta := max (r.meta - (depositos [mov0, mov1, mov2] r.idReserva -
          retiradas [mov0, mov1, mov2] r.idReserva)) 0 })) ∧
    depositos [mov0, mov1, mov2] "r1" - retiradas [mov0, mov1, mov2] "r1" = 1300 ∧
    (1300 : Rat) / 6000 * 100 = 65 / 3 ∧
    max ((6000 : Rat) - 1300) 0 = 4700 := by
  have b0 : (mov0.idReserva == "r1" && hasSub "aporte" (pyLower (pyStrip mov0.tipo))) = true :=
    rfl
  have b1 : (mov1.idReserva == "r1" && hasSub "aporte" (pyLower (pyStrip mov1.tipo))) = true :=
    rfl
  have b2 : (mov2.idReserva == "r1" && hasSub "aporte" (pyLower (pyStrip mov2.tipo))) = false :=
    rfl
  have c0 : (mov0.idReserva == "r1" && !hasSub "aporte" (pyLower (pyStrip mov0.tipo))) = false :=
    rfl
  have c1 : (mov1.idReserva == "r1" && !hasSub "aporte" (pyLower (pyStrip mov1.tipo))) = false :=
    rfl
  have c2 : (mov2.idReserva == "r1" && !hasSub "aporte" (pyLower (pyStrip mov2.tipo))) = true :=
    rfl
  have hdep : depositos [mov0, mov1, mov2] "r1" = 1500 := by
    unfold depositos
    rw [List.filter_cons, List.filter_cons, List.filter_cons, List.filter_nil,
      if_pos b0, if_pos b1, if_neg (by simp [b2]), List.map_cons, List.map_cons,
      List.map_nil, List.sum_cons, List.sum_cons, List.sum_nil]
    show mov0.valor + (mov1.valor + 0) = 1500
    norm_num [mov0, mov1]
  have hret : retiradas [mov0, mov1, mov2] "r1" = 200 := by
    unfold retiradas
    rw [List.filter_cons, List.filter_cons, List.filter_cons, List.filter_nil,
      if_neg (by simp [c0]), if_neg (by simp [c1]), if_pos c2, List.map_cons,
      List.map_nil, List.sum_cons, List.sum_nil]
    show mov2.valor + 0 = 200
    norm_num [mov2]
  refine ⟨saldos_reservas_spec [reserva0] [mov0, mov1, mov2] (by simp), ?_, by norm_num, ?_⟩
  · rw [hdep, hret]
    norm_num
  · rw [show ((6000 : Rat) - 1300) = 4700 by norm_num]
    exact max_eq_left (by norm_num)

theorem gerarFixasAux_grows (fresh : Nat → String) (ano mes : Nat) (ts : List FixaRow) :
    ∀ ledger c s k, ∃ suf,
      (gerarFixasAux fresh ano mes ts ledger c s k).1 = ledger ++ suf := by
  induction ts with
  | nil => exact fun ledger c s k => ⟨[], by simp [gerarFixasAux]⟩
  | cons f rest ih =>
    intro ledger c s k
    rw [gerarFixasAux]
    by_cases hj : ja_lancou_fixa_no_mes ledger ano mes f.idFixa = true
    · rw [if_pos hj]
      exact ih ledger c (s + 1) k
    · rw [if_neg hj]
      obtain ⟨suf, hsuf⟩ := ih (ledger ++ [novaEntradaFixa fresh k ano mes f]) (c + 1) s (k + 1)
      exact ⟨[novaEntradaFixa fresh k ano mes f] ++ suf, by rw [hsuf, List.append_assoc]⟩

theorem ja_lancou_append_of_left (l e : List GastoRow) (ano mes : Nat) (i : String)
    (h : ja_lancou_fixa_no_mes l ano mes i = true) :
    ja_lancou_fixa_no_mes (l ++ e) ano mes i = true := by
  unfold ja_lancou_fixa_no_mes at h ⊢
  rw [List.any_append, h]
  rfl

theorem ja_lancou_append_of_right (l e : List GastoRow) (ano mes : Nat) (i : String)
    (h : ja_lancou_fixa_no_mes e ano mes i = true) :
    ja_lancou_fixa_no_mes (l ++ e) ano mes i = true := by
  unfold ja_lancou_fixa_no_mes at h ⊢
  rw [List.any_append, h]
  simp

theorem ja_lancou_nova (fresh : Nat → String) (k ano mes : Nat) (f : FixaRow)
    (hid : pyStrip f.idFixa = f.idFixa) :
    ja_lancou_fixa_no_mes [novaEntradaFixa fresh k ano mes f] ano mes f.idFixa = true := by
  unfold ja_lancou_fixa_no_mes
  apply List.any_eq_true.mpr
  refine ⟨novaEntradaFixa fresh k ano mes f, List.mem_singleton.mpr rfl, ?_⟩
  show ((ano == ano && mes == mes && pyUpper "FIXA" == "FIXA" &&
    pyStrip f.idFixa == f.idFixa : Bool) = true)
  simp [hid, show pyUpper "FIXA" = "FIXA" from rfl]

theorem gerarFixasAux_covers (fresh : Nat → String) (ano mes : Nat) (ts : List FixaRow)
    (hids : ∀ f ∈ ts, pyStrip f.idFixa = f.idFixa) :
    ∀ ledger c s k, ∀ f ∈ ts,
      ja_lancou_fixa_no_mes (gerarFixasAux fresh ano mes ts ledger c s k).1 ano mes
        f.idFixa = true := by
  induction ts with
  | nil => intro ledger c s k f hf; exact absurd hf (List.not_mem_nil f)
  | cons g rest ih =>
    intro ledger c s k f hf
    rw [gerarFixasAux]
    by_cases hj : ja_lancou_fixa_no_mes ledger ano mes g.idFixa = true
    · rw [if_pos hj]
      rcases List.mem_cons.mp hf with rfl | hfr
      · obtain ⟨suf, hsuf⟩ := gerarFixasAux_grows fresh ano mes rest ledger c (s + 1) k
        rw [hsuf]
        exact ja_lancou_append_of_left ledger suf ano mes f.idFixa hj
      · exact ih (fun x hx => hids x (List.mem_cons_of_mem g hx)) ledger c (s + 1) k f hfr
    · rw [if_neg hj]
      rcases List.mem_cons.mp hf with rfl | hfr
      · obtain ⟨suf, hsuf⟩ := gerarFixasAux_grows fresh ano mes rest
          (ledger ++ [novaEntradaFixa fresh k ano mes f]) (c + 1) s (k + 1)
        rw [hsuf, List.append_assoc]
        apply ja_lancou_append_of_right
        apply ja_lancou_append_of_left
        exact ja_lancou_nova fresh k ano mes f (hids f (List.mem_cons_self f rest))
      · exact ih (fun x hx => hids x (List.mem_cons_of_mem g hx))
          (ledger ++ [novaEntradaFixa fresh k ano mes g]) (c + 1) s (k + 1) f hfr

theorem gerarFixasAux_stable (fresh : Nat → String) (ano mes : Nat) (ts : List FixaRow)
    (L : List GastoRow)
    (hall : ∀ f ∈ ts, ja_lancou_fixa_no_mes L ano mes f.idFixa = true) :
    ∀ c s k, gerarFixasAux fresh ano mes ts L c s k = (L, c, s + ts.length) := by
  induction ts with
  | nil => intro c s k; rfl
  | cons g rest ih =>
    intro c s k
    rw [gerarFixasAux, if_pos (hall g (List.mem_cons_self g rest))]
    rw [ih (fun x hx => hall x (List.mem_cons_of_mem g hx)) c (s + 1) k]
    have : s + 1 + rest.length = s + (g :: rest).length := by
      simp [List.length_cons]
      omega
    rw [this]

/-- C3: materializing recurring bills twice for the same (year, month) over
the same active templates appends zero new ledger entries the second time,
regardless of what else the ledger holds; and `ja_lancou_fixa_no_mes` holds
exactly when some ledger entry dated in that (year, month) has Origem equal
to FIXA case-insensitively (uppercased comparison) and stripped RefFixa equal
to the template id.  Template ids are assumed whitespace-free, as produced by
uuid4().hex. -/
theorem gerar_fixas_idempotente (fresh1 fresh2 : Nat → String) (gastos : List GastoRow)
    (fixas : List FixaRow) (ano mes : Nat)
    (hids : ∀ f ∈ fixas, pyStrip f.idFixa = f.idFixa) :
    ((gerar_fixas_mes fresh2 (gerar_fixas_mes fresh1 gastos fixas ano mes).1 fixas ano mes).1 =
      (gerar_fixas_mes fresh1 gastos fixas ano mes).1 ∧
     (gerar_fixas_mes fresh2 (gerar_fixas_mes fresh1 gastos fixas ano mes).1
       fixas ano mes).2.1 = 0 ∧
     (gerar_fixas_mes fresh2 (gerar_fixas_mes fresh1 gastos fixas ano mes).1
       fixas ano mes).2.2 = (fixas_ativas fixas).length) ∧
    (∀ g : List GastoRow, ∀ i : String, ∀ a m : Nat,
      ja_lancou_fixa_no_mes g a m i = true ↔
      ∃ e ∈ g, ∃ d, e.data = some d ∧ d.ano = a ∧ d.mes = m ∧
        pyUpper e.origem = "FIXA" ∧ pyStrip e.refFixa = i) := by
  constructor
  · have hids2 : ∀ f ∈ fixas_ativas fixas, pyStrip f.idFixa = f.idFixa := fun f hf =>
      hids f (List.mem_filter.mp hf).1
    have hcov : ∀ f ∈ fixas_ativas fixas,
        ja_lancou_fixa_no_mes (gerar_fixas_mes fresh1 gastos fixas ano mes).1 ano mes
          f.idFixa = true :=
      gerarFixasAux_covers fresh1 ano mes (fixas_ativas fixas) hids2 gastos 0 0 0
    have hmain : gerar_fixas_mes fresh2 (gerar_fixas_mes fresh1 gastos fixas ano mes).1
        fixas ano mes =
        ((gerar_fixas_mes fresh1 gastos fixas ano mes).1, 0,
          0 + (fixas_ativas fixas).length) :=
      gerarFixasAux_stable fresh2 ano mes (fixas_ativas fixas)
        (gerar_fixas_mes fresh1 gastos fixas ano mes).1 hcov 0 0 0
    rw [hmain]
    refine ⟨rfl, rfl, ?_⟩
    show 0 + (fixas_ativas fixas).length = (fixas_ativas fixas).length
    omega
  · intro g i a m
    unfold ja_lancou_fixa_no_mes
    rw [List.any_eq_true]
    constructor
    · rintro ⟨e, he, hb⟩
      rcases hdata : e.data with _ | d
      · rw [hdata] at hb
        exact absurd hb (by simp)
      · rw [hdata] at hb
        have hb2 := hb
        rw [Bool.and_eq_true, Bool.and_eq_true, Bool.and_eq_true] at hb2
        obtain ⟨⟨⟨h1, h2⟩, h3⟩, h4⟩ := hb2
        exact ⟨e, he, d, hdata, beq_iff_eq.mp h1, beq_iff_eq.mp h2,
          beq_iff_eq.mp h3, beq_iff_eq.mp h4⟩
    · rintro ⟨e, he, d, hdata, h1, h2, h3, h4⟩
      refine ⟨e, he, ?_⟩
      rw [hdata]
      show (d.ano == a && d.mes == m && pyUpper e.origem == "FIXA" &&
        pyStrip e.refFixa == i) = true
      rw [Bool.and_eq_true, Bool.and_eq_true, Bool.and_eq_true]
      exact ⟨⟨⟨beq_iff_eq.mpr h1, beq_iff_eq.mpr h2⟩, beq_iff_eq.mpr h3⟩, beq_iff_eq.mpr h4⟩

/-- C3 witness: one active template, empty initial ledger; the second
generation pass creates nothing and skips the single template. -/
theorem gerar_fixas_idempotente_witness :
    ((gerar_fixas_mes fresh0 (gerar_fixas_mes fresh0 [] [fixa0] 2025 3).1 [fixa0] 2025 3).1 =
      (gerar_fixas_mes fresh0 [] [fixa0] 2025 3).1 ∧
     (gerar_fixas_mes fresh0 (gerar_fixas_mes fresh0 [] [fixa0] 2025 3).1
       [fixa0] 2025 3).2.1 = 0 ∧
     (gerar_fixas_mes fresh0 (gerar_fixas_mes fresh0 [] [fixa0] 2025 3).1
       [fixa0] 2025 3).2.2 = (fixas_ativas [fixa0]).length) ∧
    (fixas_ativas [fixa0]).length = 1 := by
  obtain ⟨h1, -⟩ := gerar_fixas_idempotente fresh0 fresh0 [] [fixa0] 2025 3 (by decide)
  exact ⟨h1, by decide⟩

/-- C4: `marcar_e_separar_fixas` partitions the period rows by the
reference-based rule only: a row is fixed iff its uppercased Origem is FIXA or
its stripped RefFixa equals the stripped ID_Fixa of an active template; the
fixed and variable outputs are exactly the two filter halves, every input row
lands in exactly one of them, and the mask consults only Origem and RefFixa
(rows agreeing on those two fields classify identically). -/
theorem marcar_separar_particao (pnum : String → Option Rat) (pdate : String → Option SDate)
    (freshVar freshFix : Nat → String) (periodo : List GastoRow) (fixas : List FixaRow)
    (h : GastosOk periodo) :
    ((marcar_e_separar_fixas pnum pdate freshVar freshFix periodo fixas).2.2.1 =
      periodo.filter (fun g =>
        !(is_fixa_pred ((fixas_ativas fixas).map (fun x => pyStrip x.idFixa)) g)) ∧
     (marcar_e_separar_fixas pnum pdate freshVar freshFix periodo fixas).2.2.2.1 =
      periodo.filter (is_fixa_pred ((fixas_ativas fixas).map (fun x => pyStrip x.idFixa)))) ∧
    (∀ g ∈ periodo,
      (is_fixa_pred ((fixas_ativas fixas).map (fun x => pyStrip x.idFixa)) g = true →
        g ∈ (marcar_e_separar_fixas pnum pdate freshVar freshFix periodo fixas).2.2.2.1 ∧
        g ∉ (marcar_e_separar_fixas pnum pdate freshVar freshFix periodo fixas).2.2.1) ∧
      (is_fixa_pred ((fixas_ativas fixas).map (fun x => pyStrip x.idFixa)) g = false →
        g ∈ (marcar_e_separar_fixas pnum pdate freshVar freshFix periodo fixas).2.2.1 ∧
        g ∉ (marcar_e_separar_fixas pnum pdate freshVar freshFix periodo fixas).2.2.2.1)) ∧
    (∀ g : GastoRow,
      is_fixa_pred ((fixas_ativas fixas).map (fun x => pyStrip x.idFixa)) g = true ↔
      pyUpper g.origem = "FIXA" ∨
        ∃ f ∈ fixas, f.ativo = true ∧ pyStrip f.idFixa = pyStrip g.refFixa) ∧
    (∀ g g' : GastoRow, g.origem = g'.origem → g.refFixa = g'.refFixa →
      is_fixa_pred ((fixas_ativas fixas).map (fun x => pyStrip x.idFixa)) g =
      is_fixa_pred ((fixas_ativas fixas).map (fun x => pyStrip x.idFixa)) g') := by
  have hvar : (marcar_e_separar_fixas pnum pdate freshVar freshFix periodo fixas).2.2.1 =
      periodo.filter (fun g =>
        !(is_fixa_pred ((fixas_ativas fixas).map (fun x => pyStrip x.idFixa)) g)) := by
    show (ensure_gastos_schema pnum pdate freshVar (gastosToRaw (periodo.filter (fun g =>
      !(is_fixa_pred ((fixas_ativas fixas).map (fun x => pyStrip x.idFixa)) g))))).1 = _
    rw [ensure_gastos_fixed pnum pdate freshVar _
      (fun g hg => h g (List.mem_filter.mp hg).1)]
  have hfix : (marcar_e_separar_fixas pnum pdate freshVar freshFix periodo fixas).2.2.2.1 =
      periodo.filter
        (is_fixa_pred ((fixas_ativas fixas).map (fun x => pyStrip x.idFixa))) := by
    show (ensure_gastos_schema pnum pdate freshFix (gastosToRaw (periodo.filter
      (is_fixa_pred ((fixas_ativas fixas).map (fun x => pyStrip x.idFixa)))))).1 = _
    rw [ensure_gastos_fixed pnum pdate freshFix _
      (fun g hg => h g (List.mem_filter.mp hg).1)]
  refine ⟨⟨hvar, hfix⟩, ?_, ?_, ?_⟩
  · intro g hg
    constructor
    · intro htrue
      rw [hvar, hfix]
      refine ⟨List.mem_filter.mpr ⟨hg, htrue⟩, ?_⟩
      intro hmem
      have := (List.mem_filter.mp hmem).2
      rw [htrue] at this
      exact absurd this (by simp)
    · intro hfalse
      rw [hvar, hfix]
      refine ⟨List.mem_filter.mpr ⟨hg, by rw [hfalse]; rfl⟩, ?_⟩
      intro hmem
      have := (List.mem_filter.mp hmem).2
      rw [hfalse] at this
      exact absurd this (by simp)
  · intro g
    unfold is_fixa_pred
    rw [Bool.or_eq_true]
    constructor
    · rintro (h1 | h2)
      · exact Or.inl (beq_iff_eq.mp h1)
      · refine Or.inr ?_
        have hmem : pyStrip g.refFixa ∈ (fixas_ativas fixas).map (fun x => pyStrip x.idFixa) := by
          have := List.elem_iff.mp h2
          exact this
        rcases List.mem_map.mp hmem with ⟨f, hf, hfe⟩
        rcases List.mem_filter.mp hf with ⟨hfin, hfa⟩
        exact ⟨f, hfin, hfa, hfe⟩
    · rintro (h1 | ⟨f, hfin, hfa, hfe⟩)
      · exact Or.inl (beq_iff_eq.mpr h1)
      · refine Or.inr ?_
        apply List.elem_iff.mpr
        exact List.mem_map.mpr ⟨f, List.mem_filter.mpr ⟨hfin, hfa⟩, hfe⟩
  · intro g g' h1 h2
    unfold is_fixa_pred
    rw [h1, h2]

/-- C4 witness: one variable row and one FIXA-tagged row against a single
active template. -/
theorem marcar_separar_particao_witness :
    (((marcar_e_separar_fixas pnum0 pdate0 fresh0 fresh0 [gasto0, gasto1] [fixa0]).2.2.1 =
      [gasto0, gasto1].filter (fun g =>
        !(is_fixa_pred ((fixas_ativas [fixa0]).map (fun x => pyStrip x.idFixa)) g)) ∧
     (marcar_e_separar_fixas pnum0 pdate0 fresh0 fresh0 [gasto0, gasto1] [fixa0]).2.2.2.1 =
      [gasto0, gasto1].filter
        (is_fixa_pred ((fixas_ativas [fixa0]).map (fun x => pyStrip x.idFixa)))) ∧
    ([gasto0, gasto1].filter (fun g =>
        !(is_fixa_pred ((fixas_ativas [fixa0]).map (fun x => pyStrip x.idFixa)) g)) =
      [gasto0] ∧
     [gasto0, gasto1].filter
        (is_fixa_pred ((fixas_ativas [fixa0]).map (fun x => pyStrip x.idFixa))) =
      [gasto1])) := by
  obtain ⟨hpair, -⟩ :=
    marcar_separar_particao pnum0 pdate0 fresh0 fresh0 [gasto0, gasto1] [fixa0]
      (by unfold GastosOk; decide)
  exact ⟨hpair, by decide, by decide⟩

/-- C5 counterexample: deleting reserve r1 also deletes the movement that
references it (app.py line 1286 filters df_mov_res), contradicting the claim
that every referencing ReserveMovement is still present. -/
theorem delete_reserva_cascade_cex :
    mov0.idReserva = "r1" ∧
    mov0 ∈ state0.movres ∧
    mov0 ∉ (apagar_reserva pnum0 pdate0 fresh0 fresh0 "r1" state0).movres :=
  ⟨rfl, by decide, by decide⟩

/-- C5 (amended): deleting a bill template removes only that row from the
fixas table and leaves the ledger and every other table unchanged (entries
referencing it survive); deleting a reserve removes its row and also removes
every movement whose ID_Reserva equals the deleted id (a deliberate cascade
at app.py line 1286), while movements of other reserves and all other tables
are unchanged. -/
theorem delete_handlers_frame (pnum : String → Option Rat) (pdate : String → Option SDate)
    (freshF freshR freshM : Nat → String) (escolha : String) (st : AppState)
    (hf : FixasOk st.fixas) (hr : ReservasOk st.reservas) (hm : MovresOk st.movres) :
    ((apagar_conta_fixa pnum freshF escolha st).fixas =
       st.fixas.filter (fun f => f.idFixa != escolha) ∧
     (apagar_conta_fixa pnum freshF escolha st).gastos = st.gastos ∧
     (apagar_conta_fixa pnum freshF escolha st).metas = st.metas ∧
     (apagar_conta_fixa pnum freshF escolha st).reservas = st.reservas ∧
     (apagar_conta_fixa pnum freshF escolha st).movres = st.movres) ∧
    ((apagar_reserva pnum pdate freshR freshM escolha st).reservas =
       st.reservas.filter (fun r => r.idReserva != escolha) ∧
     (apagar_reserva pnum pdate freshR freshM escolha st).movres =
       st.movres.filter (fun m => m.idReserva != escolha) ∧
     (apagar_reserva pnum pdate freshR freshM escolha st).gastos = st.gastos ∧
     (apagar_reserva pnum pdate freshR freshM escolha st).metas = st.metas ∧
     (apagar_reserva pnum pdate freshR freshM escolha st).fixas = st.fixas) := by
  constructor
  · refine ⟨?_, rfl, rfl, rfl, rfl⟩
    show (ensure_fixas_schema pnum freshF
      (fixasToRaw (st.fixas.filter (fun f => f.idFixa != escolha)))).1 = _
    rw [ensure_fixas_fixed pnum freshF _ (fun f hfm => hf f (List.mem_filter.mp hfm).1)]
  · refine ⟨?_, ?_, rfl, rfl, rfl⟩
    · show (ensure_reservas_schema pnum freshR
        (reservasToRaw (st.reservas.filter (fun r => r.idReserva != escolha)))).1 = _
      rw [ensure_reservas_fixed pnum freshR _ (fun r hrm => hr r (List.mem_filter.mp hrm).1)]
    · show (ensure_movres_schema pnum pdate freshM
        (movresToRaw (st.movres.filter (fun m => m.idReserva != escolha)))).1 = _
      rw [ensure_movres_fixed pnum pdate freshM _ (fun m hmm => hm m (List.mem_filter.mp hmm).1)]

/-- C5 witness: deleting reserve r1 of the concrete state keeps only the r2
movement; deleting the bill template leaves the ledger row that references
it untouched. -/
theorem delete_handlers_frame_witness :
    ((apagar_conta_fixa pnum0 fresh0 "f1" state0).fixas =
       state0.fixas.filter (fun f => f.idFixa != "f1") ∧
     (apagar_conta_fixa pnum0 fresh0 "f1" state0).gastos = state0.gastos) ∧
    ((apagar_reserva pnum0 pdate0 fresh0 fresh0 "r1" state0).movres =
       state0.movres.filter (fun m => m.idReserva != "r1") ∧
     (apagar_reserva pnum0 pdate0 fresh0 fresh0 "r1" state0).movres = [mov3]) := by
  obtain ⟨⟨hf1, hf2, -, -, -⟩, ⟨-, hm1, -, -, -⟩⟩ :=
    delete_handlers_frame pnum0 pdate0 fresh0 fresh0 fresh0 "f1" state0
      (by unfold FixasOk; decide) (by unfold ReservasOk; decide) (by unfold MovresOk; decide)
  obtain ⟨-, ⟨-, hm2, -, -, -⟩⟩ :=
    delete_handlers_frame pnum0 pdate0 fresh0 fresh0 fresh0 "r1" state0
      (by unfold FixasOk; decide) (by unfold ReservasOk; decide) (by unfold MovresOk; decide)
  exact ⟨⟨hf1, hf2⟩, hm2, by decide⟩

theorem ultimo_dia_mes_ge (ano mes : Nat) : 28 ≤ ultimo_dia_mes ano mes := by
  unfold ultimo_dia_mes
  split_ifs <;> omega

theorem min2_ultimo (a m : Nat) :
    2 ≤ (min (2 : Int) ((ultimo_dia_mes a m : Nat) : Int)).toNat := by
  have h28 : (28 : Int) ≤ ((ultimo_dia_mes a m : Nat) : Int) := by
    exact_mod_cast ultimo_dia_mes_ge a m
  rw [min_eq_left (by omega)]
  decide

/-- C6: when the requested billing day is 1 (or no day is given and the first
date falls on the 1st) and n >= 2, every installment generated by
`gerar_lancamentos_parcelados` is dated with day of month at least 2: the day
is bumped to 2 and clamped to the target month's length, and no installment
ever falls on the 1st. -/
theorem parcelas_sem_dia_um (fresh : Nat → String) (grupo : String) (base : GastoRow)
    (parcelas : Int) (primeira : SDate) (dia0 : Option Int)
    (hreq : dia0 = some 1 ∨ (dia0 = none ∧ primeira.dia = 1)) (hn : 2 ≤ parcelas) :
    (novos_parcelados fresh grupo base parcelas primeira dia0).all dayAtLeastTwo = true := by
  unfold novos_parcelados
  rw [if_neg (by omega)]
  apply List.all_eq_true.mpr
  intro g hg
  rcases List.mem_map.mp hg with ⟨i, hi, rfl⟩
  rcases hreq with rfl | ⟨rfl, h1⟩
  · show decide (2 ≤ (min (if (max 1 (min (1 : Int) 31)) = 1 then (2 : Int)
      else max 1 (min (1 : Int) 31))
      ((ultimo_dia_mes (add_meses primeira i).ano (add_meses primeira i).mes : Nat) :
        Int)).toNat) = true
    rw [show (if (max 1 (min (1 : Int) 31)) = 1 then (2 : Int)
      else max 1 (min (1 : Int) 31)) = 2 by decide]
    exact decide_eq_true (min2_ultimo _ _)
  · show decide (2 ≤ (min (if (max 1 (min (primeira.dia : Int) 31)) = 1 then (2 : Int)
      else max 1 (min (primeira.dia : Int) 31))
      ((ultimo_dia_mes (add_meses primeira i).ano (add_meses primeira i).mes : Nat) :
        Int)).toNat) = true
    rw [h1]
    rw [show (if (max 1 (min ((1 : Nat) : Int) 31)) = 1 then (2 : Int)
      else max 1 (min ((1 : Nat) : Int) 31)) = 2 by decide]
    exact decide_eq_true (min2_ultimo _ _)

/-- C6 witness: a 2-installment schedule with requested day 1 starting
2025-01-15; both generated dates fall on day 2. -/
theorem parcelas_sem_dia_um_witness :
    (novos_parcelados fresh0 "gg" gasto0 2 { ano := 2025, mes := 1, dia := 15 }
      (some 1)).all dayAtLeastTwo = true :=
  parcelas_sem_dia_um fresh0 "gg" gasto0 2 { ano := 2025, mes := 1, dia := 15 } (some 1)
    (Or.inl rfl) (by norm_num)

/-- C8: when the lock marker cannot be acquired within the bounded timeout
(`acquire_lock` returned False), `salvar_excel` fails with the retryable
"try again" error raised before any serialization or write: the on-disk
document, its backup sidecar and the lock flag are unchanged and the outcome
does not depend on the serializer. -/
theorem salvar_excel_lock_timeout (serialize serialize2 : AppState → List Nat)
    (pnum : String → Option Rat) (pdate : String → Option SDate)
    (frG frF frR frM : Nat → String) (st : AppState) (fs : FS) :
    salvar_excel serialize pnum pdate frG frF frR frM false st fs =
      (Except.error "Não foi possível salvar agora. Tente novamente.", fs) ∧
    (salvar_excel serialize pnum pdate frG frF frR frM false st fs).2.doc = fs.doc ∧
    (salvar_excel serialize pnum pdate frG frF frR frM false st fs).2.bak = fs.bak ∧
    salvar_excel serialize pnum pdate frG frF frR frM false st fs =
      salvar_excel serialize2 pnum pdate frG frF frR frM false st fs :=
  ⟨rfl, rfl, rfl, rfl⟩
